import Mathlib

/-!
Shallow embedding of the OpenAI-POC assistant server (chat / knowledge-base /
image / audio / moderation services and the week-4 integration orchestrator).

Conventions used throughout:
* JavaScript strings are modelled as Lean `String` / `List Char`.
* JavaScript numbers are modelled as `Nat` / `Int` where the code only ever
  holds integers (counters, timestamps), as `ℚ` for moderation scores and as
  `ℝ` for embedding vectors and similarity scores.
* `Date.now()` / `new Date()` values are passed in explicitly as a `now : Nat`
  parameter; randomly generated identifiers (`generateResponseId`,
  `generateDocumentId`, ...) are passed in as explicit string parameters.
* Each external OpenAI capability call is an oracle function returning
  `Except String α`; `.error e` models a rejected promise carrying message `e`.
* JavaScript `Map` objects are modelled as association lists
  (`List (String × α)`) with `Map.get` = `lookupAssoc` and `Map.set` =
  `setAssoc` (replace-in-place or append, as a JS Map does).
-/

/-! ## Association-list model of a JavaScript Map -/

/-- Model of `Map.get`: the value stored under `k`, if any. -/
def lookupAssoc {α : Type} (m : List (String × α)) (k : String) : Option α :=
  match m with
  | [] => none
  | (k', v) :: rest => if k' = k then some v else lookupAssoc rest k

/-- Model of `Map.set`: replace the entry for `k` in place, or append a new
entry (JS Maps keep insertion order and overwrite in place). -/
def setAssoc {α : Type} (m : List (String × α)) (k : String) (v : α) :
    List (String × α) :=
  match m with
  | [] => [(k, v)]
  | (k', v') :: rest =>
      if k' = k then (k, v) :: rest else (k', v') :: setAssoc rest k v

/-- Model of `Map.delete`. -/
def deleteAssoc {α : Type} (m : List (String × α)) (k : String) :
    List (String × α) :=
  match m with
  | [] => []
  | (k', v') :: rest =>
      if k' = k then rest else (k', v') :: deleteAssoc rest k

/-! ## Character-level string utilities

`trimL` models JavaScript `String.prototype.trim` (strip whitespace from both
ends), `lowerL` models `toLowerCase` (the keywords involved are pure ASCII),
and `includesSub` models `String.prototype.includes` (contiguous substring
containment). -/

/-- Whitespace test used by the `trim` model. -/
def wsChar (c : Char) : Bool := c.isWhitespace

/-- Model of JavaScript `s.trim()`: drop whitespace from the front, then from
the back. -/
def trimL (l : List Char) : List Char :=
  ((l.dropWhile wsChar).reverse.dropWhile wsChar).reverse

/-- Model of JavaScript `s.toLowerCase()` on ASCII text. -/
def lowerL (l : List Char) : List Char := l.map Char.toLower

/-- Model of JavaScript `hay.includes(needle)`: contiguous substring test. -/
def includesSub (hay needle : List Char) : Bool := decide (needle <:+: hay)

theorem includesSub_iff (hay needle : List Char) :
    includesSub hay needle = true ↔ needle <:+: hay := by
  simp [includesSub]

/-! ## IntegrationService.analyzeRequestType (the intent classifier) -/

/-- The fixed image-generation trigger keywords of
`IntegrationService.analyzeRequestType`. -/
def imageKeywords : List String :=
  ["generate image", "create image", "draw", "picture of", "image of",
   "generate a", "create a"]

/-- The fixed knowledge-base trigger keywords of
`IntegrationService.analyzeRequestType`. -/
def kbKeywords : List String :=
  ["what is", "explain", "how does", "tell me about", "definition of",
   "describe"]

namespace IntegrationService

/-- Model of `IntegrationService.analyzeRequestType`: lowercase the message,
test the image keywords first, then the knowledge-base keywords, and default
to general chat. -/
def analyzeRequestType (message : String) : String :=
  let lowerMessage := lowerL message.data
  if imageKeywords.any (fun keyword => includesSub lowerMessage keyword.data) then
    "image_generation"
  else if kbKeywords.any (fun keyword => includesSub lowerMessage keyword.data) then
    "knowledge_base_query"
  else
    "general_chat"

end IntegrationService

/-! ## ModerationService -/

/-- The eleven per-category boolean flags of a moderation result
(`ModerationResponse.categories` in `shared/schema.ts`). -/
structure Categories where
  hate : Bool
  hateThreatening : Bool
  harassment : Bool
  harassmentThreatening : Bool
  selfHarm : Bool
  selfHarmIntent : Bool
  selfHarmInstructions : Bool
  sexual : Bool
  sexualMinors : Bool
  violence : Bool
  violenceGraphic : Bool
deriving DecidableEq, Repr

/-- The eleven per-category scores of a moderation result
(`ModerationResponse.categoryScores`); scores are modelled as rationals. -/
structure CategoryScores where
  hate : ℚ
  hateThreatening : ℚ
  harassment : ℚ
  harassmentThreatening : ℚ
  selfHarm : ℚ
  selfHarmIntent : ℚ
  selfHarmInstructions : ℚ
  sexual : ℚ
  sexualMinors : ℚ
  violence : ℚ
  violenceGraphic : ℚ
deriving DecidableEq, Repr

/-- `Object.entries(result.categories)` for the raw OpenAI moderation result:
the category flags with their API key names, in field order. -/
def categoriesEntries (c : Categories) : List (String × Bool) :=
  [("hate", c.hate),
   ("hate/threatening", c.hateThreatening),
   ("harassment", c.harassment),
   ("harassment/threatening", c.harassmentThreatening),
   ("self-harm", c.selfHarm),
   ("self-harm/intent", c.selfHarmIntent),
   ("self-harm/instructions", c.selfHarmInstructions),
   ("sexual", c.sexual),
   ("sexual/minors", c.sexualMinors),
   ("violence", c.violence),
   ("violence/graphic", c.violenceGraphic)]

/-- `Math.max(...Object.values(categoryScores))`: the maximum of the eleven
category scores. -/
def maxCategoryScore (s : CategoryScores) : ℚ :=
  max s.hate (max s.hateThreatening (max s.harassment
    (max s.harassmentThreatening (max s.selfHarm (max s.selfHarmIntent
      (max s.selfHarmInstructions (max s.sexual (max s.sexualMinors
        (max s.violence s.violenceGraphic)))))))))

/-- One element of `moderation.results` as returned by the OpenAI moderation
API (the fields `moderateContent` reads). -/
structure RawModerationResult where
  flagged : Bool
  categories : Categories
  categoryScores : CategoryScores
deriving DecidableEq, Repr

/-- The `ModerationResponse` record built by `moderateContent`
(history-irrelevant fields `id`/`content`/`timestamp`/`sessionId` included). -/
structure ModerationResponse where
  id : String
  content : String
  flagged : Bool
  categories : Categories
  categoryScores : CategoryScores
  timestamp : Nat
  sessionId : String
  action : String
  riskLevel : String
deriving DecidableEq, Repr

namespace ModerationService

/-- Model of `ModerationService.determineAction`: `allow` for unflagged
content; otherwise `block` if any flagged category is in the fixed
high-severity list, else `warn`. The `categories` argument is the
entries list of the raw API categories object. -/
def determineAction (flagged : Bool) (categories : List (String × Bool)) :
    String :=
  if !flagged then
    "allow"
  else
    let highSeverityCategories :=
      ["hate/threatening", "harassment/threatening", "self-harm/intent",
       "self-harm/instructions", "sexual/minors", "violence/graphic"]
    let hasHighSeverity := categories.any
      (fun p => p.2 && highSeverityCategories.contains p.1)
    if hasHighSeverity then "block" else "warn"

/-- Model of `ModerationService.calculateRiskLevel`: thresholds 0.3 and 0.7 on
the maximum category score. -/
def calculateRiskLevel (categoryScores : CategoryScores) : String :=
  let maxScore := maxCategoryScore categoryScores
  if maxScore < 3/10 then "low"
  else if maxScore < 7/10 then "medium"
  else "high"

/-- Model of `ModerationService.moderateContent`. The OpenAI call is the
oracle `api` (the `results` array of a successful response); an empty results
array is rejected; any error is re-thrown wrapped in
"Content moderation failed: ". The session history write is a mutation of
`ModerationService`'s own history map and is not relevant to the claims
below, so it is left out of the returned value. -/
def moderateContent (api : Except String (List RawModerationResult))
    (mid : String) (now : Nat) (content sessionId : String) :
    Except String ModerationResponse :=
  match api with
  | .error e => .error ("Content moderation failed: " ++ e)
  | .ok results =>
    match results with
    | [] => .error ("Content moderation failed: No moderation results returned")
    | result :: _ =>
      .ok { id := mid
            content := content
            flagged := result.flagged
            categories := result.categories
            categoryScores := result.categoryScores
            timestamp := now
            sessionId := sessionId
            action := determineAction result.flagged
              (categoriesEntries result.categories)
            riskLevel := calculateRiskLevel result.categoryScores }

/-- Model of `ModerationService.isContentSafe`: `true` iff `moderateContent`
succeeds and reports the content unflagged; any error (including a moderation
capability failure) yields `false`. -/
def isContentSafe (api : Except String (List RawModerationResult))
    (mid : String) (now : Nat) (content sessionId : String) : Bool :=
  match moderateContent api mid now content sessionId with
  | .error _ => false
  | .ok moderationResult => !moderationResult.flagged

/-- Model of `ModerationService.generateSafeResponse`: category-specific
refusal text, first matching group wins, generic fallback otherwise. -/
def generateSafeResponse (m : ModerationResponse) : String :=
  let flaggedCategories :=
    ((categoriesEntries m.categories).filter (fun p => p.2)).map Prod.fst
  if flaggedCategories.length = 0 then
    "I apologize, but I couldn't process your request. Please try rephrasing your message."
  else if m.categories.hate || m.categories.hateThreatening then
    "I can't respond to content that contains hate speech or discriminatory language. Please keep our conversation respectful and inclusive."
  else if m.categories.harassment || m.categories.harassmentThreatening then
    "I'm designed to have helpful and respectful conversations. Please avoid content that could be considered harassing or threatening."
  else if m.categories.violence || m.categories.violenceGraphic then
    "I cannot engage with content that involves violence or graphic descriptions. Let's focus on constructive and positive topics instead."
  else if m.categories.sexual || m.categories.sexualMinors then
    "I'm not able to discuss sexual content. Please keep our conversation appropriate and professional."
  else if m.categories.selfHarm || m.categories.selfHarmIntent || m.categories.selfHarmInstructions then
    "I'm concerned about the content of your message. If you're struggling with difficult thoughts, please consider reaching out to a mental health professional or crisis helpline. I'm here to help with other topics in a positive way."
  else
    "I'm not able to respond to that type of content. Please rephrase your message and I'll be happy to help with your question or request."

end ModerationService

/-! ## EmbeddingService: text chunking -/

/-- Sentence-terminator test for the `text.split(/[.!?]+/)` model. -/
def termChar (c : Char) : Bool := c = '.' || c = '!' || c = '?'

/-- Worker for the `text.split(/[.!?]+/)` model: `inRun` records whether the
previous character was a terminator (so that a maximal run produces a single
break, as the `+` in the regex does); `acc` is the current fragment,
reversed. -/
def splitTermAux : Bool → List Char → List Char → List (List Char)
  | _, [], acc => [acc.reverse]
  | inRun, c :: cs, acc =>
    if termChar c then
      if inRun then splitTermAux true cs acc
      else acc.reverse :: splitTermAux true cs []
    else splitTermAux false cs (c :: acc)

/-- Model of `text.split(/[.!?]+/)`: split on maximal runs of sentence
terminators. -/
def splitTerm (text : List Char) : List (List Char) :=
  splitTermAux false text []

/-- Model of `currentChunk.split(" ")`: split at every single space character
(a literal-string split, no run collapsing). -/
def splitSp : List Char → List (List Char)
  | [] => [[]]
  | c :: cs =>
    if c = ' ' then
      [] :: splitSp cs
    else
      match splitSp cs with
      | [] => [[c]]
      | h :: t => (c :: h) :: t

/-- Model of `words.join(" ")`. -/
def joinSp (words : List (List Char)) : List Char := List.intercalate [' '] words

/-- Model of `words.slice(-n)`: the last `n` elements, or the whole list when
`n = 0` (JavaScript `slice(-0)` is `slice(0)`). -/
def sliceLast {α : Type} (n : Nat) (l : List α) : List α :=
  if n = 0 then l else l.drop (l.length - n)

/-- The sentence-accumulation loop of `EmbeddingService.splitTextIntoChunks`:
greedily grow `currentChunk`; when the next trimmed sentence would overflow
`maxChunkSize` (and the buffer is non-empty) emit the trimmed buffer and seed
the next one with the last `overlapSize / 5` words of the old buffer; emit the
final non-empty buffer. -/
def chunkLoop (maxChunkSize overlapSize : Nat) :
    List (List Char) → List (List Char) → List Char → List (List Char)
  | [], chunks, currentChunk =>
    if 0 < (trimL currentChunk).length then chunks ++ [trimL currentChunk]
    else chunks
  | sentence :: rest, chunks, currentChunk =>
    let trimmedSentence := trimL sentence
    if currentChunk.length + trimmedSentence.length > maxChunkSize ∧
        0 < currentChunk.length then
      let words := splitSp currentChunk
      let overlapWords := sliceLast (overlapSize / 5) words
      chunkLoop maxChunkSize overlapSize rest (chunks ++ [trimL currentChunk])
        (joinSp overlapWords ++ ' ' :: trimmedSentence)
    else
      chunkLoop maxChunkSize overlapSize rest chunks
        (if currentChunk.isEmpty then trimmedSentence
         else currentChunk ++ ' ' :: trimmedSentence)

/-- The sentence list `splitTextIntoChunks` iterates over: the regex split,
keeping only fragments whose trim is non-empty. -/
def sentencesOfText (text : List Char) : List (List Char) :=
  (splitTerm text).filter (fun s => decide (0 < (trimL s).length))

/-- Model of `EmbeddingService.splitTextIntoChunks` at the character-list
level. -/
def splitTextIntoChunksL (maxChunkSize overlapSize : Nat) (text : List Char) :
    List (List Char) :=
  chunkLoop maxChunkSize overlapSize (sentencesOfText text) [] []

namespace EmbeddingService

/-- Model of `EmbeddingService.splitTextIntoChunks` (String-level wrapper;
the TypeScript defaults are 1000/100, the knowledge base calls it with
800/80). -/
def splitTextIntoChunks (text : String) (maxChunkSize : Nat := 1000)
    (overlapSize : Nat := 100) : List String :=
  (splitTextIntoChunksL maxChunkSize overlapSize text.data).map
    (fun l => String.mk l)

end EmbeddingService

/-! ## EmbeddingService: vectors, cosine similarity, retrieval -/

/-- The metadata attached to a stored chunk embedding
(`DocumentEmbedding.metadata` in `shared/schema.ts`). -/
structure EmbMeta where
  filename : String
  source : String
  chunkIndex : Nat
  timestamp : Nat
  tokenCount : Nat

/-- A stored chunk embedding (`DocumentEmbedding` in `shared/schema.ts`);
embedding vectors are modelled as lists of reals. -/
structure DocumentEmbedding where
  id : String
  text : String
  embedding : List ℝ
  metadata : EmbMeta

/-- Sum of pairwise products; with equal-length lists this is the dot-product
accumulator of `calculateCosineSimilarity`'s loop. -/
noncomputable def dotSum (a b : List ℝ) : ℝ := (List.zipWith (· * ·) a b).sum

/-- The Euclidean norm computed by `calculateCosineSimilarity`
(`Math.sqrt` of the sum of squares). -/
noncomputable def vecNorm (a : List ℝ) : ℝ := Real.sqrt (dotSum a a)

namespace EmbeddingService

/-- Model of `EmbeddingService.calculateCosineSimilarity`: throws on a length
mismatch, returns 0 if either norm is zero, otherwise the cosine. -/
noncomputable def calculateCosineSimilarity (vectorA vectorB : List ℝ) :
    Except String ℝ :=
  if vectorA.length ≠ vectorB.length then
    .error "Vectors must have the same length for cosine similarity calculation"
  else
    let dotProduct := dotSum vectorA vectorB
    let normA := vecNorm vectorA
    let normB := vecNorm vectorB
    if normA = 0 ∨ normB = 0 then .ok 0
    else .ok (dotProduct / (normA * normB))

/-- Scoring step of `findSimilarDocuments`: pair every candidate with its
cosine similarity to the query; a thrown `DimensionMismatch` propagates. -/
noncomputable def scoreDocuments (queryEmbedding : List ℝ) :
    List DocumentEmbedding → Except String (List (DocumentEmbedding × ℝ))
  | [] => .ok []
  | doc :: rest =>
    match calculateCosineSimilarity queryEmbedding doc.embedding with
    | .error e => .error e
    | .ok s =>
      match scoreDocuments queryEmbedding rest with
      | .error e => .error e
      | .ok scored => .ok ((doc, s) :: scored)

/-- Model of `EmbeddingService.findSimilarDocuments`: score all candidates,
stable-sort by similarity descending, take the first `topK`. -/
noncomputable def findSimilarDocuments (queryEmbedding : List ℝ)
    (documentEmbeddings : List DocumentEmbedding) (topK : Nat := 5) :
    Except String (List (DocumentEmbedding × ℝ)) :=
  match scoreDocuments queryEmbedding documentEmbeddings with
  | .error e => .error e
  | .ok documentsWithScores =>
    .ok ((documentsWithScores.mergeSort
      (fun a b => decide (b.2 ≤ a.2))).take topK)

end EmbeddingService

/-! ## EmbeddingService: embedding generation oracles -/

/-- A successful response of the OpenAI embeddings API, as read by
`generateEmbedding`: the vector plus the reported token usage. -/
structure EmbedApiResult where
  embedding : List ℝ
  totalTokens : Nat

/-- The argument record of `generateEmbedding` (`EmbeddingRequest` in
`shared/schema.ts`). -/
structure EmbeddingRequest where
  text : String
  filename : Option String
  source : Option String
  chunkIndex : Option Nat

namespace EmbeddingService

/-- Model of `EmbeddingService.generateEmbedding`: call the embeddings API
(the oracle `api`), wrap its result in a `DocumentEmbedding`; errors are
re-thrown wrapped in "Embedding generation failed: ". `eid`/`now` stand for
the generated id and current date. -/
def generateEmbedding (api : String → Except String EmbedApiResult)
    (eid : String) (now : Nat) (request : EmbeddingRequest) :
    Except String DocumentEmbedding :=
  match api request.text with
  | .error e => .error ("Embedding generation failed: " ++ e)
  | .ok r =>
    .ok { id := eid
          text := request.text
          embedding := r.embedding
          metadata :=
            { filename := request.filename.getD "unknown"
              source := request.source.getD "text_input"
              chunkIndex := request.chunkIndex.getD 0
              timestamp := now
              tokenCount := r.totalTokens } }

/-- The per-chunk loop of `generateMultipleEmbeddings`: embed each text with
its position as `chunkIndex`; the first failure aborts the whole batch
(`Promise.all` rejection). The 10-per-batch grouping and inter-batch delay do
not change the resulting list. -/
def embedEach (api : String → Except String EmbedApiResult) (eid : String)
    (now : Nat) (filename source : Option String) :
    Nat → List String → Except String (List DocumentEmbedding)
  | _, [] => .ok []
  | i, text :: rest =>
    match generateEmbedding api eid now
        { text := text, filename := filename, source := source,
          chunkIndex := some i } with
    | .error e => .error e
    | .ok d =>
      match embedEach api eid now filename source (i + 1) rest with
      | .error e => .error e
      | .ok ds => .ok (d :: ds)

/-- Model of `EmbeddingService.generateMultipleEmbeddings`: embed all chunks
in order; any failure is re-thrown wrapped in
"Batch embedding generation failed: ". -/
def generateMultipleEmbeddings (api : String → Except String EmbedApiResult)
    (eid : String) (now : Nat) (texts : List String)
    (filename source : Option String) :
    Except String (List DocumentEmbedding) :=
  match embedEach api eid now filename source 0 texts with
  | .error e => .error ("Batch embedding generation failed: " ++ e)
  | .ok ds => .ok ds

end EmbeddingService

/-! ## KnowledgeBaseService -/

/-- The per-document metadata record kept in
`KnowledgeBaseService.documentMetadata`. -/
structure DocMeta where
  filename : String
  uploadDate : Nat
  chunkCount : Nat

/-- The two maps owned by `KnowledgeBaseService`. -/
structure KnowledgeBaseState where
  documents : List (String × List DocumentEmbedding)
  documentMetadata : List (String × DocMeta)

/-- The empty knowledge base (freshly constructed service). -/
def emptyKnowledgeBase : KnowledgeBaseState :=
  { documents := [], documentMetadata := [] }

/-- The result record of `addDocument`. -/
structure AddDocumentResult where
  documentId : String
  chunkCount : Nat
  tokenCount : Nat

/-- The argument record of `query` (`KnowledgeBaseQuery` in
`shared/schema.ts`). -/
structure KnowledgeBaseQuery where
  question : String
  sessionId : String
  maxResults : Option Nat
  minSimilarity : Option ℝ

/-- One source entry of a `KnowledgeBaseResponse`. -/
structure KbSource where
  filename : String
  similarity : ℝ
  snippet : String

/-- Token usage of a chat completion. -/
structure TokenUsage where
  promptTokens : Nat
  completionTokens : Nat
  totalTokens : Nat
deriving DecidableEq, Repr

/-- The result record of `query` (`KnowledgeBaseResponse` in
`shared/schema.ts`). -/
structure KnowledgeBaseResponse where
  answer : String
  sources : List KbSource
  confidence : ℝ
  hasContext : Bool
  tokenUsage : Option TokenUsage

/-- A successful chat-completion response as read by `query`:
`choices[0].message.content` (possibly null) and the usage counters. -/
structure ChatApiResult where
  content : Option String
  usage : TokenUsage

/-- Model of `value || default` for JavaScript numeric options: `undefined`
and `0` (both falsy) fall back to the default. -/
def orFalsyNat (x : Option Nat) (d : Nat) : Nat :=
  match x with
  | none => d
  | some v => if v = 0 then d else v

/-- Model of `value || default` for a real-valued option. -/
noncomputable def orFalsyReal (x : Option ℝ) (d : ℝ) : ℝ :=
  match x with
  | none => d
  | some v => if v = 0 then d else v

/-- `Math.round(x)` (round half toward positive infinity). -/
noncomputable def jsRound (x : ℝ) : ℤ := ⌊x + 1 / 2⌋

/-- The fixed empty-knowledge-base answer of `query`. -/
def noDocumentsAnswer : String :=
  "I don't have any documents in my knowledge base yet. Please upload some documents first, and then I'll be able to answer questions based on their content."

/-- The fixed no-relevant-results answer of `query`. -/
def noRelevantAnswer : String :=
  "I couldn't find any relevant information in my knowledge base for your question. The documents I have don't seem to contain information related to your query."

/-- The chunk-snippet of a source entry: first 200 characters, with an
ellipsis when truncated. -/
def snippetOf (text : String) : String :=
  String.mk (text.data.take 200) ++ (if text.data.length > 200 then "..." else "")

namespace KnowledgeBaseService

/-- Model of `KnowledgeBaseService.generateDocumentId` given the
timestamp and random suffix it draws: `doc_` + timestamp + cleaned filename +
random suffix (non-alphanumeric characters replaced by underscores). -/
def generateDocumentId (filename : String) (timestamp : Nat)
    (randomSuffix : String) : String :=
  let cleanFilename := String.mk (filename.data.map (fun c =>
    if c.isAlphanum || c = '.' || c = '-' then c else '_'))
  "doc_" ++ toString timestamp ++ "_" ++ cleanFilename ++ "_" ++ randomSuffix

/-- Model of `KnowledgeBaseService.addDocument`: chunk the content
(800/80), embed every chunk via `generateMultipleEmbeddings`, then store the
embeddings and the metadata; any embedding failure is re-thrown wrapped in
"Document processing failed: " and nothing is stored. `documentId` is the
freshly generated id, `eid`/`now` are the embedding id and current date. -/
def addDocument (api : String → Except String EmbedApiResult)
    (documentId eid : String) (now : Nat) (st : KnowledgeBaseState)
    (filename content : String) :
    Except String (AddDocumentResult × KnowledgeBaseState) :=
  let chunks := EmbeddingService.splitTextIntoChunks content 800 80
  match EmbeddingService.generateMultipleEmbeddings api eid now chunks
      (some filename) (some "document_upload") with
  | .error e => .error ("Document processing failed: " ++ e)
  | .ok embeddings =>
    let totalTokens :=
      embeddings.foldl (fun sum emb => sum + emb.metadata.tokenCount) 0
    .ok ({ documentId := documentId
           chunkCount := chunks.length
           tokenCount := totalTokens },
         { documents := setAssoc st.documents documentId embeddings
           documentMetadata := setAssoc st.documentMetadata documentId
             { filename := filename, uploadDate := now,
               chunkCount := chunks.length } })

/-- The context block built from the relevant documents
(`[Source i]: text`, joined by blank lines). -/
def contextOf (relevantDocuments : List (DocumentEmbedding × ℝ)) : String :=
  String.intercalate "\n\n"
    ((relevantDocuments.enum.map (fun p =>
      "[Source " ++ toString (p.1 + 1) ++ "]: " ++ p.2.1.text)))

/-- The user prompt `query` sends to the chat-completion capability. -/
def promptOf (context question : String) : String :=
  "Context from knowledge base:\n" ++ context ++ "\n\nQuestion: " ++ question ++
  "\n\nPlease answer the question based on the provided context. If the context doesn't contain enough information to answer the question completely, say so clearly."

/-- Model of `KnowledgeBaseService.query`. `embedApi` is
`generateQueryEmbedding`'s OpenAI call; `chatApi` is the chat-completion
call receiving the grounded prompt. Every caught error is re-thrown wrapped
in "Knowledge base query failed: ". -/
noncomputable def query (embedApi : String → Except String (List ℝ))
    (chatApi : String → Except String ChatApiResult)
    (st : KnowledgeBaseState) (q : KnowledgeBaseQuery) :
    Except String KnowledgeBaseResponse :=
  match (match embedApi q.question with
         | .error e => .error ("Query embedding generation failed: " ++ e)
         | .ok v => .ok v : Except String (List ℝ)) with
  | .error e => .error ("Knowledge base query failed: " ++ e)
  | .ok queryEmbedding =>
    let allEmbeddings := (st.documents.map Prod.snd).flatten
    if allEmbeddings.length = 0 then
      .ok { answer := noDocumentsAnswer, sources := [], confidence := 0,
            hasContext := false, tokenUsage := none }
    else
      match EmbeddingService.findSimilarDocuments queryEmbedding allEmbeddings
          (orFalsyNat q.maxResults 3) with
      | .error e => .error ("Knowledge base query failed: " ++ e)
      | .ok similarDocuments =>
        let minSimilarity := orFalsyReal q.minSimilarity (7 / 10)
        let relevantDocuments :=
          similarDocuments.filter (fun doc => decide (doc.2 ≥ minSimilarity))
        if relevantDocuments.length = 0 then
          .ok { answer := noRelevantAnswer, sources := [], confidence := 0,
                hasContext := false, tokenUsage := none }
        else
          match chatApi (promptOf (contextOf relevantDocuments) q.question) with
          | .error e => .error ("Knowledge base query failed: " ++ e)
          | .ok response =>
            let answer := response.content.getD
              "I apologize, but I couldn't generate a response based on the available context."
            let sources := relevantDocuments.map (fun doc =>
              { filename := doc.1.metadata.filename
                similarity := doc.2
                snippet := snippetOf doc.1.text : KbSource })
            let avgSimilarity :=
              (relevantDocuments.map Prod.snd).sum / relevantDocuments.length
            let confidence := (jsRound (avgSimilarity * 100) : ℝ) / 100
            .ok { answer := answer, sources := sources,
                  confidence := confidence, hasContext := true,
                  tokenUsage := some response.usage }

/-- Model of `KnowledgeBaseService.removeDocument`. -/
def removeDocument (st : KnowledgeBaseState) (documentId : String) :
    Bool × KnowledgeBaseState :=
  match lookupAssoc st.documents documentId with
  | some _ =>
    (true, { documents := deleteAssoc st.documents documentId
             documentMetadata := deleteAssoc st.documentMetadata documentId })
  | none => (false, st)

end KnowledgeBaseService

/-! ## IntegrationService: data model -/

/-- Per-session feature flags (`ChatFeatures` in `shared/schema.ts`). -/
structure ChatFeatures where
  chat : Bool
  knowledgeBase : Bool
  imageGeneration : Bool
  audioInput : Bool
  textToSpeech : Bool
  moderation : Bool
deriving DecidableEq, Repr

/-- Per-session usage counters (`SessionStatistics` in `shared/schema.ts`);
times are epoch numbers, `sessionDuration` is a signed difference. -/
structure SessionStatistics where
  sessionId : String
  messagesCount : Nat
  imagesGenerated : Nat
  audioTranscriptions : Nat
  knowledgeBaseQueries : Nat
  moderationChecks : Nat
  moderationBlocked : Nat
  tokensUsed : Nat
  sessionDuration : Int
  startTime : Nat
  lastActivity : Nat
deriving DecidableEq, Repr

/-- The two private maps of `IntegrationService`. -/
structure IntegrationState where
  sessionFeatures : List (String × ChatFeatures)
  sessionStatistics : List (String × SessionStatistics)
deriving DecidableEq, Repr

/-- A chat message (`ChatMessage` in `shared/schema.ts`). -/
structure ChatMessage where
  id : String
  role : String
  content : String
  timestamp : Nat
  sessionId : String
  tokenUsage : Option TokenUsage
deriving DecidableEq, Repr

/-- A generated image descriptor (`ImageGenerationResponse` in
`shared/schema.ts`; fields not read by the orchestrator are omitted from the
claims but kept for shape). -/
structure ImageGenerationResponse where
  id : String
  url : String
  prompt : String
  revisedPrompt : String
  timestamp : Nat
  sessionId : String
deriving DecidableEq, Repr

/-- A synthesized-speech descriptor (`TextToSpeechResponse` in
`shared/schema.ts`, abbreviated to the fields the orchestrator threads
through). -/
structure TextToSpeechResponse where
  id : String
  text : String
  voice : String
  filename : String
  sessionId : String
deriving DecidableEq, Repr

/-- The argument record of `processRequest` (`IntegratedChatRequest`);
`enableTTS` is falsy-defaulted to `false`, `ttsVoice` to "alloy". -/
structure IntegratedChatRequest where
  message : String
  sessionId : String
  enableTTS : Bool
  ttsVoice : Option String

/-- The unified response envelope (`IntegratedChatResponse` in
`shared/schema.ts`). `audioTranscription` is only ever set by
`processAudioInput`, never by `processRequest`. -/
structure IntegratedChatResponse where
  sessionId : String
  timestamp : Nat
  features : ChatFeatures
  requestType : Option String
  chat : Option ChatMessage
  knowledgeBase : Option KnowledgeBaseResponse
  image : Option ImageGenerationResponse
  audio : Option TextToSpeechResponse
  moderation : Option ModerationResponse
  error : Option String

/-- The collaborating singleton services `processRequest` calls, as oracles:
`moderate` is `moderationService.moderateContent` (content, sessionId);
`chatSend` is `chatService.sendMessage` (message, sessionId) returning the
assistant message; `kbQuery` is `knowledgeBaseService.query`; `handleImage`
is the private `handleImageGeneration` (regex prompt extraction plus
`imageService.generateImage`) on (message, sessionId); `tts` is
`audioService.textToSpeech` (text, voice, sessionId). Each mutates only its
own service's history, which is outside `IntegrationState`. -/
structure Capabilities where
  moderate : String → String → Except String ModerationResponse
  chatSend : String → String → Except String ChatMessage
  kbQuery : KnowledgeBaseQuery → Except String KnowledgeBaseResponse
  handleImage : String → String → Except String ImageGenerationResponse
  tts : String → String → String → Except String TextToSpeechResponse

namespace IntegrationService

/-- The server-side default feature set returned by `getSessionFeatures` for a
session with no stored configuration. -/
def defaultFeatures : ChatFeatures :=
  { chat := true, knowledgeBase := true, imageGeneration := false,
    audioInput := false, textToSpeech := false, moderation := true }

/-- The default statistics object built for a session with no stored entry. -/
def defaultStatistics (sessionId : String) (now : Nat) : SessionStatistics :=
  { sessionId := sessionId, messagesCount := 0, imagesGenerated := 0,
    audioTranscriptions := 0, knowledgeBaseQueries := 0, moderationChecks := 0,
    moderationBlocked := 0, tokensUsed := 0, sessionDuration := 0,
    startTime := now, lastActivity := now }

/-- Model of `IntegrationService.getSessionFeatures` (a pure read: the stored
features or the default). -/
def getSessionFeatures (st : IntegrationState) (sessionId : String) :
    ChatFeatures :=
  (lookupAssoc st.sessionFeatures sessionId).getD defaultFeatures

/-- Model of `IntegrationService.configureSessionFeatures`. -/
def configureSessionFeatures (st : IntegrationState) (sessionId : String)
    (features : ChatFeatures) : IntegrationState :=
  { st with sessionFeatures := setAssoc st.sessionFeatures sessionId features }

/-- Model of `IntegrationService.getSessionStatistics`. When an entry exists,
`stats` aliases the stored object, so the assignment
`stats.sessionDuration = Date.now() - stats.startTime.getTime()` writes the
recomputed duration through to the map entry; when no entry exists the
default object is returned without being stored. -/
def getSessionStatistics (now : Nat) (st : IntegrationState)
    (sessionId : String) : SessionStatistics × IntegrationState :=
  match lookupAssoc st.sessionStatistics sessionId with
  | some stored =>
    let stats := { stored with
      sessionDuration := (now : Int) - (stored.startTime : Int) }
    (stats, { st with
      sessionStatistics := setAssoc st.sessionStatistics sessionId stats })
  | none =>
    let stats := defaultStatistics sessionId now
    ({ stats with
       sessionDuration := (now : Int) - (stats.startTime : Int) }, st)

/-- Model of the private `IntegrationService.updateStatistics`: bump the
counter matching `action` on the stored (or fresh default) statistics object,
refresh `lastActivity`, and store the result. -/
def updateStatistics (now : Nat) (st : IntegrationState)
    (sessionId action : String) : IntegrationState :=
  let stats := (lookupAssoc st.sessionStatistics sessionId).getD
    (defaultStatistics sessionId now)
  let stats :=
    if action = "general_chat" then
      { stats with messagesCount := stats.messagesCount + 1 }
    else if action = "image_generation" then
      { stats with imagesGenerated := stats.imagesGenerated + 1,
                   messagesCount := stats.messagesCount + 1 }
    else if action = "knowledge_base_query" then
      { stats with knowledgeBaseQueries := stats.knowledgeBaseQueries + 1,
                   messagesCount := stats.messagesCount + 1 }
    else if action = "audio_transcription" then
      { stats with audioTranscriptions := stats.audioTranscriptions + 1 }
    else if action = "moderation_blocked" then
      { stats with moderationBlocked := stats.moderationBlocked + 1 }
    else stats
  let newStats := { stats with lastActivity := now }
  { st with sessionStatistics := setAssoc st.sessionStatistics sessionId newStats }

/-- Per-feature enabled-session counters of `getSystemStatistics`. -/
structure FeatureCounts where
  chat : Nat
  knowledgeBase : Nat
  imageGeneration : Nat
  audioInput : Nat
  textToSpeech : Nat
  moderation : Nat
deriving DecidableEq, Repr

/-- The result record of `getSystemStatistics`. -/
structure SystemStatistics where
  totalSessions : Nat
  activeFeatures : FeatureCounts
  totalRequests : Nat
  averageRequestsPerSession : Nat
deriving DecidableEq, Repr

/-- `Math.round(a / b)` for natural counters (`b > 0`). -/
def natRoundDiv (a b : Nat) : Nat := (2 * a + b) / (2 * b)

/-- Model of `IntegrationService.getSystemStatistics` (a pure read over both
maps). -/
def getSystemStatistics (st : IntegrationState) : SystemStatistics :=
  let allStats := st.sessionStatistics.map Prod.snd
  let totalSessions := allStats.length
  let totalRequests := allStats.foldl (fun sum stat => sum + stat.messagesCount) 0
  let activeFeatures := st.sessionFeatures.foldl
    (fun acc p =>
      { chat := acc.chat + (if p.2.chat then 1 else 0)
        knowledgeBase := acc.knowledgeBase + (if p.2.knowledgeBase then 1 else 0)
        imageGeneration :=
          acc.imageGeneration + (if p.2.imageGeneration then 1 else 0)
        audioInput := acc.audioInput + (if p.2.audioInput then 1 else 0)
        textToSpeech := acc.textToSpeech + (if p.2.textToSpeech then 1 else 0)
        moderation := acc.moderation + (if p.2.moderation then 1 else 0) })
    { chat := 0, knowledgeBase := 0, imageGeneration := 0, audioInput := 0,
      textToSpeech := 0, moderation := 0 }
  { totalSessions := totalSessions
    activeFeatures := activeFeatures
    totalRequests := totalRequests
    averageRequestsPerSession :=
      if totalSessions > 0 then natRoundDiv totalRequests totalSessions else 0 }

/-- Model of `IntegrationService.clearSession` restricted to the two maps this
service owns (the other services' history clears live outside
`IntegrationState`). -/
def clearSession (st : IntegrationState) (sessionId : String) :
    IntegrationState :=
  { sessionFeatures := deleteAssoc st.sessionFeatures sessionId
    sessionStatistics := deleteAssoc st.sessionStatistics sessionId }

/-- The fixed fallback text sent through the chat service when an
image-generation request arrives with the feature disabled. -/
def imageDisabledMessage : String :=
  "Image generation is currently disabled. Please enable it in the features panel to generate images."

/-- The fixed fallback text sent through the chat service when a
knowledge-base query arrives with the feature disabled. -/
def knowledgeBaseDisabledMessage : String :=
  "Knowledge base queries are currently disabled. Please enable the knowledge base feature or upload some documents first."

/-- The templated confirmation chat content for a generated image. -/
def imageConfirmationContent (message : String) : String :=
  "I've generated an image based on your prompt: \"" ++ message ++
  "\". The image should appear above this message."

/-- The apologetic content of the catch-all error response. -/
def errorContent (e : String) : String :=
  "I apologize, but I encountered an error while processing your request: " ++
  e ++ ". Please try again."

/-- The response envelope built by `processRequest`'s catch-all handler. -/
def errorResponse (now : Nat) (rid : String) (st : IntegrationState)
    (req : IntegratedChatRequest) (e : String) : IntegratedChatResponse :=
  { sessionId := req.sessionId
    timestamp := now
    features := getSessionFeatures st req.sessionId
    requestType := none
    chat := some { id := rid, role := "assistant", content := errorContent e,
                   timestamp := now, sessionId := req.sessionId,
                   tokenUsage := none }
    knowledgeBase := none, image := none, audio := none, moderation := none
    error := some e }

/-- Step 3 of `processRequest` (the `switch` on the detected request type):
returns the image result, knowledge-base result and chat message of the
dispatched branch, or the error that branch threw. -/
noncomputable def dispatch (caps : Capabilities) (now : Nat) (rid : String)
    (req : IntegratedChatRequest) (features : ChatFeatures)
    (requestType : String) :
    Except String
      (Option ImageGenerationResponse × Option KnowledgeBaseResponse ×
        ChatMessage) :=
  if requestType = "image_generation" then
    if features.imageGeneration then
      match caps.handleImage req.message req.sessionId with
      | .error e => .error e
      | .ok image =>
        .ok (some image, none,
          { id := rid, role := "assistant",
            content := imageConfirmationContent req.message,
            timestamp := now, sessionId := req.sessionId, tokenUsage := none })
    else
      match caps.chatSend imageDisabledMessage req.sessionId with
      | .error e => .error e
      | .ok chatMsg => .ok (none, none, chatMsg)
  else if requestType = "knowledge_base_query" then
    if features.knowledgeBase then
      match caps.kbQuery { question := req.message,
                           sessionId := req.sessionId,
                           maxResults := some 3,
                           minSimilarity := some (7 / 10) } with
      | .error e => .error e
      | .ok kbResponse =>
        .ok (none, some kbResponse,
          { id := rid, role := "assistant", content := kbResponse.answer,
            timestamp := now, sessionId := req.sessionId, tokenUsage := none })
    else
      match caps.chatSend knowledgeBaseDisabledMessage req.sessionId with
      | .error e => .error e
      | .ok chatMsg => .ok (none, none, chatMsg)
  else
    match caps.chatSend req.message req.sessionId with
    | .error e => .error e
    | .ok chatMsg => .ok (none, none, chatMsg)

/-- Steps 2-5 of `processRequest` (classification, dispatch, optional TTS,
statistics update), entered once moderation has passed or been skipped. -/
noncomputable def continueAfterModeration (caps : Capabilities) (now : Nat) (rid : String)
    (st : IntegrationState) (req : IntegratedChatRequest)
    (features : ChatFeatures) (modOpt : Option ModerationResponse) :
    IntegratedChatResponse × IntegrationState :=
  let requestType := analyzeRequestType req.message
  match dispatch caps now rid req features requestType with
  | .error e => (errorResponse now rid st req e, st)
  | .ok (image, knowledgeBase, chatMsg) =>
    let audio :=
      if features.textToSpeech && req.enableTTS then
        match caps.tts chatMsg.content
            (match req.ttsVoice with
             | none => "alloy"
             | some v => if v = "" then "alloy" else v)
            req.sessionId with
        | .ok a => some a
        | .error _ => none
      else none
    ({ sessionId := req.sessionId
       timestamp := now
       features := features
       requestType := some requestType
       chat := some chatMsg
       knowledgeBase := knowledgeBase
       image := image
       audio := audio
       moderation := modOpt
       error := none },
     updateStatistics now st req.sessionId requestType)

/-- Model of `IntegrationService.processRequest`: moderation gate (when the
feature is enabled), then classification, dispatch, optional TTS (whose
failure is swallowed), then the statistics update; any error thrown along the
way is converted by the catch-all into an apologetic error response, with the
state as of the throw point. -/
noncomputable def processRequest (caps : Capabilities) (now : Nat) (rid : String)
    (st : IntegrationState) (req : IntegratedChatRequest) :
    IntegratedChatResponse × IntegrationState :=
  let features := getSessionFeatures st req.sessionId
  if features.moderation then
    match caps.moderate req.message req.sessionId with
    | .error e => (errorResponse now rid st req e, st)
    | .ok moderationResult =>
      if moderationResult.flagged then
        ({ sessionId := req.sessionId
           timestamp := now
           features := features
           requestType := none
           chat := some { id := rid, role := "assistant",
                          content := ModerationService.generateSafeResponse
                            moderationResult,
                          timestamp := now, sessionId := req.sessionId,
                          tokenUsage := none }
           knowledgeBase := none, image := none, audio := none
           moderation := some moderationResult
           error := none },
         updateStatistics now st req.sessionId "moderation_blocked")
      else
        continueAfterModeration caps now rid st req features
          (some moderationResult)
  else
    continueAfterModeration caps now rid st req features none

end IntegrationService

/-! ## Theorems. Shared concrete values used by witnesses. -/

/-- All eleven category flags false. -/
def noCategories : Categories :=
  { hate := false, hateThreatening := false, harassment := false,
    harassmentThreatening := false, selfHarm := false, selfHarmIntent := false,
    selfHarmInstructions := false, sexual := false, sexualMinors := false,
    violence := false, violenceGraphic := false }

/-- All eleven category scores zero. -/
def zeroScores : CategoryScores :=
  { hate := 0, hateThreatening := 0, harassment := 0,
    harassmentThreatening := 0, selfHarm := 0, selfHarmIntent := 0,
    selfHarmInstructions := 0, sexual := 0, sexualMinors := 0,
    violence := 0, violenceGraphic := 0 }

/-- Boolean shorthand for "some category of the fixed high-severity subset is
flagged". -/
def highSeverityFlagged (c : Categories) : Bool :=
  c.hateThreatening || c.harassmentThreatening || c.selfHarmIntent ||
  c.selfHarmInstructions || c.sexualMinors || c.violenceGraphic

theorem hasHighSeverity_eq (c : Categories) :
    ((categoriesEntries c).any (fun p => p.2 &&
      (["hate/threatening", "harassment/threatening", "self-harm/intent",
        "self-harm/instructions", "sexual/minors",
        "violence/graphic"].contains p.1))) = highSeverityFlagged c := by
  simp [categoriesEntries, highSeverityFlagged]
  cases c.hateThreatening <;> cases c.harassmentThreatening <;>
    cases c.selfHarmIntent <;> cases c.selfHarmInstructions <;>
    cases c.sexualMinors <;> cases c.violenceGraphic <;> rfl

/-- Claim C5: if the moderation capability call errors, `isContentSafe`
returns `false` (fail closed); it returns `true` exactly when a successful
moderation check reports the content unflagged. -/
theorem isContentSafe_fail_closed
    (api : Except String (List RawModerationResult)) (mid : String)
    (now : Nat) (content sessionId : String) :
    (∀ e, api = .error e →
      ModerationService.isContentSafe api mid now content sessionId = false) ∧
    (ModerationService.isContentSafe api mid now content sessionId = true ↔
      ∃ r rest, api = .ok (r :: rest) ∧ r.flagged = false) := by
  constructor
  · intro e he
    subst he
    rfl
  · cases api with
    | error e =>
      simp [ModerationService.isContentSafe, ModerationService.moderateContent]
    | ok results =>
      cases results with
      | nil =>
        simp [ModerationService.isContentSafe,
          ModerationService.moderateContent]
      | cons r rest =>
        simp [ModerationService.isContentSafe,
          ModerationService.moderateContent]

/-- Witness for C5: a failing moderation call yields `false`; a successful
unflagged check yields `true`. -/
theorem isContentSafe_fail_closed_witness :
    ModerationService.isContentSafe (.error "connection reset") "m1" 0
      "hello" "s1" = false ∧
    ModerationService.isContentSafe
      (.ok [{ flagged := false, categories := noCategories,
              categoryScores := zeroScores }]) "m1" 0 "hello" "s1" = true := by
  constructor
  · exact (isContentSafe_fail_closed (.error "connection reset") "m1" 0
      "hello" "s1").1 "connection reset" rfl
  · exact (isContentSafe_fail_closed
      (.ok [{ flagged := false, categories := noCategories,
              categoryScores := zeroScores }]) "m1" 0 "hello" "s1").2.mpr
      ⟨_, _, rfl, rfl⟩

/-- Claim C6: risk level is low / medium / high according to the 0.3 and 0.7
thresholds on the maximum category score; the action is `allow` for unflagged
content, `block` exactly when a category of the fixed high-severity subset is
flagged, and `warn` for every other flagged result. -/
theorem moderation_riskLevel_action_spec (c : Categories)
    (s : CategoryScores) :
    (ModerationService.calculateRiskLevel s = "low" ↔
      maxCategoryScore s < 3/10) ∧
    (ModerationService.calculateRiskLevel s = "medium" ↔
      3/10 ≤ maxCategoryScore s ∧ maxCategoryScore s < 7/10) ∧
    (ModerationService.calculateRiskLevel s = "high" ↔
      7/10 ≤ maxCategoryScore s) ∧
    (ModerationService.determineAction false (categoriesEntries c) =
      "allow") ∧
    (ModerationService.determineAction true (categoriesEntries c) = "block" ↔
      highSeverityFlagged c = true) ∧
    (ModerationService.determineAction true (categoriesEntries c) = "warn" ↔
      highSeverityFlagged c = false) := by
  refine ⟨?_, ?_, ?_, rfl, ?_, ?_⟩
  · unfold ModerationService.calculateRiskLevel
    dsimp only
    split_ifs with h1 h2 <;> simp_all <;> try linarith
  · unfold ModerationService.calculateRiskLevel
    dsimp only
    split_ifs with h1 h2 <;> simp_all <;> try linarith
  · unfold ModerationService.calculateRiskLevel
    dsimp only
    split_ifs with h1 h2 <;> simp_all <;> try linarith
  · unfold ModerationService.determineAction
    dsimp only
    rw [hasHighSeverity_eq]
    cases h : highSeverityFlagged c <;> simp [h]
  · unfold ModerationService.determineAction
    dsimp only
    rw [hasHighSeverity_eq]
    cases h : highSeverityFlagged c <;> simp [h]

/-- Witness for C6 at concrete inputs: zero scores give risk "low"; a result
flagged only for `violence` (score 0.9) warns with risk "high"; flagging
`sexual/minors` forces "block". -/
theorem moderation_riskLevel_action_spec_witness :
    ModerationService.calculateRiskLevel zeroScores = "low" ∧
    ModerationService.determineAction true
      (categoriesEntries { noCategories with violence := true }) = "warn" ∧
    ModerationService.determineAction true
      (categoriesEntries { noCategories with sexualMinors := true }) =
      "block" := by
  refine ⟨?_, ?_, ?_⟩
  · exact (moderation_riskLevel_action_spec noCategories zeroScores).1.mpr
      (by norm_num [zeroScores, maxCategoryScore])
  · exact (moderation_riskLevel_action_spec
      { noCategories with violence := true } zeroScores).2.2.2.2.2.mpr
      (by decide)
  · exact (moderation_riskLevel_action_spec
      { noCategories with sexualMinors := true } zeroScores).2.2.2.2.1.mpr
      (by decide)

theorem any_includes_iff (keywords : List String) (l : List Char) :
    (keywords.any (fun keyword => includesSub l keyword.data)) = true ↔
      ∃ k ∈ keywords, k.data <:+: l := by
  simp [List.any_eq_true, includesSub]

/-- Claim C7: intent classification is a case-insensitive substring match
with fixed precedence (image triggers first, then knowledge-base triggers,
else general chat), and the three example messages classify as stated. -/
theorem analyzeRequestType_spec (message : String) :
    ((∃ k ∈ imageKeywords, k.data <:+: lowerL message.data) →
      IntegrationService.analyzeRequestType message = "image_generation") ∧
    ((¬ ∃ k ∈ imageKeywords, k.data <:+: lowerL message.data) →
      (∃ k ∈ kbKeywords, k.data <:+: lowerL message.data) →
      IntegrationService.analyzeRequestType message = "knowledge_base_query") ∧
    ((¬ ∃ k ∈ imageKeywords, k.data <:+: lowerL message.data) →
      (¬ ∃ k ∈ kbKeywords, k.data <:+: lowerL message.data) →
      IntegrationService.analyzeRequestType message = "general_chat") ∧
    IntegrationService.analyzeRequestType "Generate image of a cat" =
      "image_generation" ∧
    IntegrationService.analyzeRequestType "What is a cat" =
      "knowledge_base_query" ∧
    IntegrationService.analyzeRequestType "Hello there" = "general_chat" := by
  refine ⟨?_, ?_, ?_, by decide, by decide, by decide⟩
  · intro h
    unfold IntegrationService.analyzeRequestType
    dsimp only
    rw [if_pos ((any_includes_iff imageKeywords (lowerL message.data)).mpr h)]
  · intro h1 h2
    have hb1 : (imageKeywords.any
        (fun keyword => includesSub (lowerL message.data) keyword.data)) =
        false := by
      rw [← Bool.not_eq_true, any_includes_iff]
      exact h1
    unfold IntegrationService.analyzeRequestType
    dsimp only
    rw [hb1]
    simp only [Bool.false_eq_true, if_false]
    rw [if_pos ((any_includes_iff kbKeywords (lowerL message.data)).mpr h2)]
  · intro h1 h2
    have hb1 : (imageKeywords.any
        (fun keyword => includesSub (lowerL message.data) keyword.data)) =
        false := by
      rw [← Bool.not_eq_true, any_includes_iff]
      exact h1
    have hb2 : (kbKeywords.any
        (fun keyword => includesSub (lowerL message.data) keyword.data)) =
        false := by
      rw [← Bool.not_eq_true, any_includes_iff]
      exact h2
    unfold IntegrationService.analyzeRequestType
    dsimp only
    rw [hb1, hb2]
    simp

/-- Witness for C7: the image-trigger conditional applied at the message
"Please draw me a map" (which contains the trigger "draw"). -/
theorem analyzeRequestType_spec_witness :
    IntegrationService.analyzeRequestType "Please draw me a map" =
      "image_generation" := by
  exact (analyzeRequestType_spec "Please draw me a map").1
    ⟨"draw", by decide, by decide⟩

/-- Counterexample to claim C2 as stated: `addDocument` has no zero-chunk
guard. With empty content, chunking yields zero chunks, no embedding call is
made (the would-be failing embedding oracle is never consulted), and the call
succeeds with `chunkCount = 0`, storing an empty document. -/
theorem addDocument_empty_content_succeeds :
    KnowledgeBaseService.addDocument (fun _ => .error "embedding service down")
      "doc1" "emb1" 0 emptyKnowledgeBase "empty.txt" "" =
    .ok ({ documentId := "doc1", chunkCount := 0, tokenCount := 0 },
         { documents := [("doc1", [])],
           documentMetadata :=
             [("doc1", { filename := "empty.txt", uploadDate := 0,
                         chunkCount := 0 })] }) := by
  rfl

/-- Claim C2 amended: when chunking yields zero chunks (for example, empty or
whitespace-only content), `addDocument` does NOT fail: it succeeds without
consulting the embedding capability, stores an empty document under the fresh
id, and returns `chunkCount = 0` and `tokenCount = 0`. -/
theorem addDocument_zero_chunks_spec
    (api : String → Except String EmbedApiResult) (documentId eid : String)
    (now : Nat) (st : KnowledgeBaseState) (filename content : String)
    (h : EmbeddingService.splitTextIntoChunks content 800 80 = []) :
    KnowledgeBaseService.addDocument api documentId eid now st filename
      content =
    .ok ({ documentId := documentId, chunkCount := 0, tokenCount := 0 },
         { documents := setAssoc st.documents documentId [],
           documentMetadata := setAssoc st.documentMetadata documentId
             { filename := filename, uploadDate := now, chunkCount := 0 } }) := by
  unfold KnowledgeBaseService.addDocument
  dsimp only
  rw [h]
  rfl

/-- Witness for the amended C2 at whitespace-only content. -/
theorem addDocument_zero_chunks_spec_witness :
    KnowledgeBaseService.addDocument (fun _ => .ok { embedding := [], totalTokens := 9 })
      "doc2" "emb2" 5 emptyKnowledgeBase "blank.txt" "   " =
    .ok ({ documentId := "doc2", chunkCount := 0, tokenCount := 0 },
         { documents := [("doc2", [])],
           documentMetadata :=
             [("doc2", { filename := "blank.txt", uploadDate := 5,
                         chunkCount := 0 })] }) := by
  exact addDocument_zero_chunks_spec
    (fun _ => .ok { embedding := [], totalTokens := 9 }) "doc2" "emb2" 5
    emptyKnowledgeBase "blank.txt" "   " (by rfl)

/-- Claim C3: `addDocument` is atomic. If batch embedding fails, the call
throws (wrapped in "Document processing failed: ") and produces no new
knowledge-base state, so the caller's document and metadata maps are exactly
as before; on success both maps are updated together, the document map with
the whole embedding list and the metadata map with the matching chunk
count. -/
theorem addDocument_atomic (api : String → Except String EmbedApiResult)
    (documentId eid : String) (now : Nat) (st : KnowledgeBaseState)
    (filename content : String) :
    (∀ e, EmbeddingService.generateMultipleEmbeddings api eid now
        (EmbeddingService.splitTextIntoChunks content 800 80)
        (some filename) (some "document_upload") = .error e →
      KnowledgeBaseService.addDocument api documentId eid now st filename
        content = .error ("Document processing failed: " ++ e)) ∧
    (∀ embeddings, EmbeddingService.generateMultipleEmbeddings api eid now
        (EmbeddingService.splitTextIntoChunks content 800 80)
        (some filename) (some "document_upload") = .ok embeddings →
      KnowledgeBaseService.addDocument api documentId eid now st filename
        content =
      .ok ({ documentId := documentId,
             chunkCount :=
               (EmbeddingService.splitTextIntoChunks content 800 80).length,
             tokenCount := embeddings.foldl
               (fun sum emb => sum + emb.metadata.tokenCount) 0 },
           { documents := setAssoc st.documents documentId embeddings,
             documentMetadata := setAssoc st.documentMetadata documentId
               { filename := filename, uploadDate := now,
                 chunkCount :=
                   (EmbeddingService.splitTextIntoChunks content 800 80).length } })) := by
  constructor
  · intro e he
    unfold KnowledgeBaseService.addDocument
    dsimp only
    rw [he]
  · intro embeddings he
    unfold KnowledgeBaseService.addDocument
    dsimp only
    rw [he]

/-- Witness for C3: a failing embedding oracle on one-sentence content makes
`addDocument` throw (with the wrapped message), leaving no stored state; a
succeeding oracle stores the whole document. -/
theorem addDocument_atomic_witness :
    KnowledgeBaseService.addDocument (fun _ => .error "rate limited")
      "doc3" "emb3" 0 emptyKnowledgeBase "a.txt" "Hello world." =
      .error "Document processing failed: Batch embedding generation failed: Embedding generation failed: rate limited" ∧
    KnowledgeBaseService.addDocument (fun _ => .ok { embedding := [], totalTokens := 7 })
      "doc3" "emb3" 0 emptyKnowledgeBase "a.txt" "Hello world." =
      .ok ({ documentId := "doc3", chunkCount := 1, tokenCount := 7 },
           { documents :=
               [("doc3",
                 [{ id := "emb3", text := "Hello world", embedding := [],
                    metadata := { filename := "a.txt",
                                  source := "document_upload",
                                  chunkIndex := 0, timestamp := 0,
                                  tokenCount := 7 } }])],
             documentMetadata :=
               [("doc3", { filename := "a.txt", uploadDate := 0,
                           chunkCount := 1 })] }) := by
  constructor
  · exact (addDocument_atomic (fun _ => .error "rate limited") "doc3" "emb3" 0
      emptyKnowledgeBase "a.txt" "Hello world.").1
      "Batch embedding generation failed: Embedding generation failed: rate limited"
      (by rfl)
  · exact (addDocument_atomic (fun _ => .ok { embedding := [], totalTokens := 7 })
      "doc3" "emb3" 0 emptyKnowledgeBase "a.txt" "Hello world.").2
      [{ id := "emb3", text := "Hello world", embedding := [],
         metadata := { filename := "a.txt", source := "document_upload",
                       chunkIndex := 0, timestamp := 0, tokenCount := 7 } }]
      (by rfl)

/-- Claim C4: whenever the query embedding succeeds, `query` on a knowledge
base with zero documents returns the fixed "no documents yet" answer with
`hasContext = false` and `confidence = 0`, regardless of the question. -/
theorem query_empty_knowledge_base
    (embedApi : String → Except String (List ℝ))
    (chatApi : String → Except String ChatApiResult)
    (st : KnowledgeBaseState) (q : KnowledgeBaseQuery)
    (h : st.documents = []) (v : List ℝ)
    (hv : embedApi q.question = .ok v) :
    KnowledgeBaseService.query embedApi chatApi st q =
      .ok { answer := noDocumentsAnswer, sources := [], confidence := 0,
            hasContext := false, tokenUsage := none } := by
  unfold KnowledgeBaseService.query
  rw [hv, h]
  rfl

/-- Witness for C4: the empty knowledge base with a concrete question. -/
theorem query_empty_knowledge_base_witness :
    KnowledgeBaseService.query (fun _ => .ok [1, 0])
      (fun _ => .error "chat capability unused") emptyKnowledgeBase
      { question := "What is an embedding?", sessionId := "s1",
        maxResults := none, minSimilarity := none } =
      .ok { answer := noDocumentsAnswer, sources := [], confidence := 0,
            hasContext := false, tokenUsage := none } := by
  exact query_empty_knowledge_base (fun _ => .ok [1, 0])
    (fun _ => .error "chat capability unused") emptyKnowledgeBase
    { question := "What is an embedding?", sessionId := "s1",
      maxResults := none, minSimilarity := none } rfl [1, 0] rfl

theorem lookupAssoc_setAssoc_self {α : Type} (m : List (String × α))
    (k : String) (v : α) : lookupAssoc (setAssoc m k v) k = some v := by
  induction m with
  | nil => simp [setAssoc, lookupAssoc]
  | cons p rest ih =>
    by_cases h : p.1 = k
    · simp [setAssoc, lookupAssoc, h]
    · simpa [setAssoc, lookupAssoc, h] using ih

/-- Concrete capability bundle used by integration counterexamples/witnesses:
the chat service echoes the prompt it is given as the assistant reply; every
other capability fails if consulted. -/
def echoCapabilities : Capabilities :=
  { moderate := fun _ _ => .error "moderation capability unused"
    chatSend := fun message sessionId =>
      .ok { id := "m1", role := "assistant", content := message,
            timestamp := 0, sessionId := sessionId, tokenUsage := none }
    kbQuery := fun _ => .error "knowledge base unused"
    handleImage := fun _ _ => .error "image generation unused"
    tts := fun _ _ _ => .error "tts unused" }

/-- A feature record with the knowledge base and moderation turned off. -/
def kbDisabledFeatures : ChatFeatures :=
  { chat := true, knowledgeBase := false, imageGeneration := false,
    audioInput := false, textToSpeech := false, moderation := false }

/-- Counterexample to claim C1 as stated. Session "s1" has the knowledge base
disabled; the message "What is an embedding?" classifies as
`knowledge_base_query`; `processRequest` takes the disabled-fallback branch,
yet the session's `knowledgeBaseQueries` counter ends at 1 (not 0): step 5
calls `updateStatistics` with the classified request type regardless of which
dispatch branch ran. The fallback is also not a fixed chat message: the fixed
disabled text is sent through the chat service as a prompt, and its reply
(here, the echo) becomes `response.chat`. -/
theorem processRequest_kb_disabled_counterexample :
    IntegrationService.analyzeRequestType "What is an embedding?" =
      "knowledge_base_query" ∧
    (IntegrationService.getSessionFeatures
      { sessionFeatures := [("s1", kbDisabledFeatures)],
        sessionStatistics := [] } "s1").knowledgeBase = false ∧
    lookupAssoc (IntegrationService.processRequest echoCapabilities 7 "r1"
      { sessionFeatures := [("s1", kbDisabledFeatures)],
        sessionStatistics := [] }
      { message := "What is an embedding?", sessionId := "s1",
        enableTTS := false, ttsVoice := none }).2.sessionStatistics "s1" =
      some { sessionId := "s1", messagesCount := 1, imagesGenerated := 0,
             audioTranscriptions := 0, knowledgeBaseQueries := 1,
             moderationChecks := 0, moderationBlocked := 0, tokensUsed := 0,
             sessionDuration := 0, startTime := 7, lastActivity := 7 } := by
  refine ⟨by decide, by rfl, ?_⟩
  rfl

/-- Claim C1 amended: with the knowledge base disabled and a message that
classifies as `knowledge_base_query` (moderation disabled or passing),
`processRequest` sends the fixed "feature disabled" text through the chat
service and returns that service's reply as the chat result, with no
knowledge-base result attached; and the accounting step runs with the
classified request type, so the session's `knowledgeBaseQueries` counter IS
incremented by 1 (along with `messagesCount`). -/
theorem processRequest_kb_disabled_spec (caps : Capabilities) (now : Nat)
    (rid : String) (st : IntegrationState) (req : IntegratedChatRequest)
    (chatMsg : ChatMessage)
    (hkb : (IntegrationService.getSessionFeatures st req.sessionId).knowledgeBase = false)
    (hmod : (IntegrationService.getSessionFeatures st req.sessionId).moderation = false)
    (hcls : IntegrationService.analyzeRequestType req.message =
      "knowledge_base_query")
    (hchat : caps.chatSend IntegrationService.knowledgeBaseDisabledMessage
      req.sessionId = .ok chatMsg) :
    (IntegrationService.processRequest caps now rid st req).1.chat =
      some chatMsg ∧
    (IntegrationService.processRequest caps now rid st req).1.knowledgeBase =
      none ∧
    (IntegrationService.processRequest caps now rid st req).2 =
      IntegrationService.updateStatistics now st req.sessionId
        "knowledge_base_query" ∧
    (lookupAssoc (IntegrationService.processRequest caps now rid st
        req).2.sessionStatistics req.sessionId).map
        SessionStatistics.knowledgeBaseQueries =
      some (((lookupAssoc st.sessionStatistics req.sessionId).getD
        (IntegrationService.defaultStatistics req.sessionId now)).knowledgeBaseQueries
        + 1) := by
  have hdisp : IntegrationService.dispatch caps now rid req
      (IntegrationService.getSessionFeatures st req.sessionId)
      (IntegrationService.analyzeRequestType req.message) =
      .ok (none, none, chatMsg) := by
    rw [hcls]
    unfold IntegrationService.dispatch
    rw [if_neg (by decide), if_pos rfl, hkb]
    simp [hchat]
  have hmain : IntegrationService.processRequest caps now rid st req =
      ({ sessionId := req.sessionId
         timestamp := now
         features := IntegrationService.getSessionFeatures st req.sessionId
         requestType := some (IntegrationService.analyzeRequestType req.message)
         chat := some chatMsg
         knowledgeBase := none
         image := none
         audio := if (IntegrationService.getSessionFeatures st
              req.sessionId).textToSpeech && req.enableTTS then
            match caps.tts chatMsg.content
                (match req.ttsVoice with
                 | none => "alloy"
                 | some v => if v = "" then "alloy" else v)
                req.sessionId with
            | .ok a => some a
            | .error _ => none
          else none
         moderation := none
         error := none },
       IntegrationService.updateStatistics now st req.sessionId
         (IntegrationService.analyzeRequestType req.message)) := by
    unfold IntegrationService.processRequest
    dsimp only
    rw [hmod]
    simp only [Bool.false_eq_true, if_false]
    unfold IntegrationService.continueAfterModeration
    dsimp only
    rw [hdisp]
  rw [hcls] at hmain
  refine ⟨by rw [hmain], by rw [hmain], by rw [hmain], ?_⟩
  rw [hmain]
  unfold IntegrationService.updateStatistics
  dsimp only
  rw [if_neg (by decide), if_neg (by decide), if_pos rfl]
  simp [lookupAssoc_setAssoc_self]

/-- Witness for the amended C1 at the concrete counterexample inputs. -/
theorem processRequest_kb_disabled_spec_witness :
    (IntegrationService.processRequest echoCapabilities 7 "r1"
      { sessionFeatures := [("s1", kbDisabledFeatures)],
        sessionStatistics := [] }
      { message := "What is an embedding?", sessionId := "s1",
        enableTTS := false, ttsVoice := none }).1.chat =
      some { id := "m1", role := "assistant",
             content := IntegrationService.knowledgeBaseDisabledMessage,
             timestamp := 0, sessionId := "s1", tokenUsage := none } := by
  exact (processRequest_kb_disabled_spec echoCapabilities 7 "r1"
    { sessionFeatures := [("s1", kbDisabledFeatures)],
      sessionStatistics := [] }
    { message := "What is an embedding?", sessionId := "s1",
      enableTTS := false, ttsVoice := none }
    { id := "m1", role := "assistant",
      content := IntegrationService.knowledgeBaseDisabledMessage,
      timestamp := 0, sessionId := "s1", tokenUsage := none }
    rfl rfl (by decide) rfl).1

theorem lookupAssoc_setAssoc_ne {α : Type} (m : List (String × α))
    (k k2 : String) (v : α) (h : k2 ≠ k) :
    lookupAssoc (setAssoc m k v) k2 = lookupAssoc m k2 := by
  induction m with
  | nil =>
    simp only [setAssoc, lookupAssoc]
    rw [if_neg (Ne.symm h)]
  | cons p rest ih =>
    by_cases hp : p.1 = k
    · simp only [setAssoc, if_pos hp, lookupAssoc]
      rw [if_neg (Ne.symm h), if_neg (by rw [hp]; exact Ne.symm h)]
    · simp only [setAssoc, if_neg hp, lookupAssoc]
      by_cases hp2 : p.1 = k2
      · rw [if_pos hp2, if_pos hp2]
      · rw [if_neg hp2, if_neg hp2]
        exact ih

theorem lookupAssoc_none_not_mem {α : Type} (m : List (String × α))
    (k : String) (h : lookupAssoc m k = none) : ∀ p ∈ m, p.1 ≠ k := by
  induction m with
  | nil => simp
  | cons q rest ih =>
    intro p hp
    rw [List.mem_cons] at hp
    rcases hp with hp | hp
    · subst hp
      intro hq
      simp [lookupAssoc, hq] at h
    · by_cases hq : q.1 = k
      · simp [lookupAssoc, hq] at h
      · exact ih (by simpa [lookupAssoc, hq] using h) p hp

theorem setAssoc_length_of_lookup {α : Type} (m : List (String × α))
    (k : String) (v s0 : α) (h : lookupAssoc m k = some s0) :
    (setAssoc m k v).length = m.length := by
  induction m with
  | nil => simp [lookupAssoc] at h
  | cons p rest ih =>
    by_cases hp : p.1 = k
    · simp [setAssoc, hp]
    · simp only [setAssoc, if_neg hp, List.length_cons]
      rw [ih (by simpa [lookupAssoc, hp] using h)]

theorem setAssoc_map_snd_of_lookup {α β : Type} (f : α → β)
    (m : List (String × α)) (k : String) (v s0 : α)
    (h : lookupAssoc m k = some s0) (hf : f v = f s0) :
    (setAssoc m k v).map (fun p => f p.2) = m.map (fun p => f p.2) := by
  induction m with
  | nil => simp [lookupAssoc] at h
  | cons p rest ih =>
    by_cases hp : p.1 = k
    · have : s0 = p.2 := by
        simp [lookupAssoc, hp] at h
        exact h.symm
      subst this
      simp [setAssoc, hp, hf]
    · simp only [setAssoc, if_neg hp, List.map_cons]
      rw [ih (by simpa [lookupAssoc, hp] using h)]

theorem foldl_add_of_map_eq {β : Type} (f : β → Nat) :
    ∀ (l1 l2 : List β) (a : Nat), l1.map f = l2.map f →
      l1.foldl (fun s t => s + f t) a = l2.foldl (fun s t => s + f t) a := by
  intro l1
  induction l1 with
  | nil =>
    intro l2 a h
    cases l2 with
    | nil => rfl
    | cons x xs => simp at h
  | cons x xs ih =>
    intro l2 a h
    cases l2 with
    | nil => simp at h
    | cons y ys =>
      simp only [List.map_cons, List.cons.injEq] at h
      simp only [List.foldl_cons, h.1]
      exact ih ys _ h.2

/-- Counterexample to claim C10 as stated. For a session that IS present in
the statistics map, `getSessionStatistics` does not leave the map unchanged:
`stats` aliases the stored object, so
`stats.sessionDuration = Date.now() - stats.startTime.getTime()` rewrites the
stored entry's `sessionDuration` (here from 0 to 5). -/
theorem getSessionStatistics_aliasing_counterexample :
    (IntegrationService.getSessionStatistics 5
      { sessionFeatures := [],
        sessionStatistics :=
          [("s1", IntegrationService.defaultStatistics "s1" 0)] } "s1").2 ≠
    { sessionFeatures := [],
      sessionStatistics :=
        [("s1", IntegrationService.defaultStatistics "s1" 0)] } := by
  decide

/-- Claim C10 amended: `getSessionFeatures` is a pure read returning the
stored features or the default, and `getSessionStatistics` never creates or
removes entries — for a session absent from the statistics map the whole
state is untouched and the default is returned without being stored — but for
a present session it refreshes the stored entry's `sessionDuration` field in
place (an aliasing write; every other field is untouched). The features map
is never written by either read, `getSystemStatistics` is invariant under the
read, and a session absent from the statistics map has no entry to be counted
in `totalSessions`, which counts exactly the stored entries. -/
theorem session_reads_frame_spec (now : Nat) (st : IntegrationState)
    (sid : String) :
    (lookupAssoc st.sessionFeatures sid = none →
      IntegrationService.getSessionFeatures st sid =
        IntegrationService.defaultFeatures) ∧
    ((IntegrationService.getSessionStatistics now st sid).2.sessionFeatures =
      st.sessionFeatures) ∧
    (lookupAssoc st.sessionStatistics sid = none →
      (IntegrationService.getSessionStatistics now st sid).2 = st ∧
      (IntegrationService.getSessionStatistics now st sid).1 =
        { IntegrationService.defaultStatistics sid now with
          sessionDuration := (now : Int) - (now : Int) }) ∧
    (∀ sid2, sid2 ≠ sid →
      lookupAssoc
        (IntegrationService.getSessionStatistics now st sid).2.sessionStatistics
        sid2 = lookupAssoc st.sessionStatistics sid2) ∧
    (∀ s0, lookupAssoc st.sessionStatistics sid = some s0 →
      lookupAssoc
        (IntegrationService.getSessionStatistics now st sid).2.sessionStatistics
        sid =
      some { s0 with sessionDuration := (now : Int) - (s0.startTime : Int) }) ∧
    (IntegrationService.getSystemStatistics
      (IntegrationService.getSessionStatistics now st sid).2 =
      IntegrationService.getSystemStatistics st) ∧
    ((IntegrationService.getSystemStatistics st).totalSessions =
      st.sessionStatistics.length) ∧
    (lookupAssoc st.sessionStatistics sid = none →
      ∀ p ∈ st.sessionStatistics, p.1 ≠ sid) := by
  refine ⟨?_, ?_, ?_, ?_, ?_, ?_,
    by simp [IntegrationService.getSystemStatistics],
    lookupAssoc_none_not_mem _ _⟩
  · intro h
    unfold IntegrationService.getSessionFeatures
    rw [h]
    rfl
  · unfold IntegrationService.getSessionStatistics
    cases h : lookupAssoc st.sessionStatistics sid <;> rfl
  · intro h
    unfold IntegrationService.getSessionStatistics
    rw [h]
    exact ⟨rfl, rfl⟩
  · intro sid2 hne
    unfold IntegrationService.getSessionStatistics
    cases h : lookupAssoc st.sessionStatistics sid with
    | none => rfl
    | some s0 =>
      dsimp only
      exact lookupAssoc_setAssoc_ne _ _ _ _ hne
  · intro s0 h
    unfold IntegrationService.getSessionStatistics
    rw [h]
    dsimp only
    exact lookupAssoc_setAssoc_self _ _ _
  · unfold IntegrationService.getSessionStatistics
    cases h : lookupAssoc st.sessionStatistics sid with
    | none => rfl
    | some s0 =>
      dsimp only
      unfold IntegrationService.getSystemStatistics
      dsimp only
      have hlen : (setAssoc st.sessionStatistics sid
          { s0 with sessionDuration := (now : Int) - (s0.startTime : Int) }).length =
          st.sessionStatistics.length :=
        setAssoc_length_of_lookup _ _ _ _ h
      have hmap : (setAssoc st.sessionStatistics sid
          { s0 with sessionDuration := (now : Int) - (s0.startTime : Int) }).map
            (fun p => p.2.messagesCount) =
          st.sessionStatistics.map (fun p => p.2.messagesCount) :=
        setAssoc_map_snd_of_lookup SessionStatistics.messagesCount _ _ _ _ h rfl
    
      have hreq : ((setAssoc st.sessionStatistics sid
          { s0 with sessionDuration := (now : Int) - (s0.startTime : Int) }).map
            Prod.snd).foldl (fun sum stat => sum + stat.messagesCount) 0 =
          (st.sessionStatistics.map Prod.snd).foldl
            (fun sum stat => sum + stat.messagesCount) 0 := by
        rw [List.foldl_map, List.foldl_map]
        have := foldl_add_of_map_eq (fun p : String × SessionStatistics =>
          p.2.messagesCount) _ _ 0 hmap
        exact this
      simp only [List.length_map, hlen, hreq]
  
/-- Witness for the amended C10: a concrete two-entry state; reading
statistics for the absent session "s2" leaves the state untouched and
returns the default, and the features read for "s2" yields the default. -/
theorem session_reads_frame_spec_witness :
    IntegrationService.getSessionFeatures
      { sessionFeatures := [],
        sessionStatistics :=
          [("s1", IntegrationService.defaultStatistics "s1" 0)] } "s2" =
      IntegrationService.defaultFeatures ∧
    (IntegrationService.getSessionStatistics 5
      { sessionFeatures := [],
        sessionStatistics :=
          [("s1", IntegrationService.defaultStatistics "s1" 0)] } "s2").2 =
      { sessionFeatures := [],
        sessionStatistics :=
          [("s1", IntegrationService.defaultStatistics "s1" 0)] } := by
  constructor
  · exact (session_reads_frame_spec 5
      { sessionFeatures := [],
        sessionStatistics :=
          [("s1", IntegrationService.defaultStatistics "s1" 0)] } "s2").1 rfl
  · exact ((session_reads_frame_spec 5
      { sessionFeatures := [],
        sessionStatistics :=
          [("s1", IntegrationService.defaultStatistics "s1" 0)] } "s2").2.2.1
      rfl).1

/-! ## Cosine similarity facts (claim C8) -/

theorem dotSum_nil_left (b : List ℝ) : dotSum [] b = 0 := by
  simp [dotSum]

theorem dotSum_cons (x y : ℝ) (a b : List ℝ) :
    dotSum (x :: a) (y :: b) = x * y + dotSum a b := by
  simp [dotSum]

theorem dotSum_eq_range_sum :
    ∀ (a b : List ℝ), a.length = b.length →
      dotSum a b = ∑ i ∈ Finset.range a.length, a.getD i 0 * b.getD i 0 := by
  intro a
  induction a with
  | nil =>
    intro b h
    simp [dotSum]
  | cons x a' ih =>
    intro b h
    cases b with
    | nil => simp at h
    | cons y b' =>
      simp only [List.length_cons, Nat.succ.injEq] at h
      rw [dotSum_cons, List.length_cons, Finset.sum_range_succ']
      simp only [List.getD_cons_succ, List.getD_cons_zero]
      rw [ih b' h]
      ring

theorem dotSum_self_nonneg (a : List ℝ) : 0 ≤ dotSum a a := by
  induction a with
  | nil => simp [dotSum]
  | cons x a' ih =>
    rw [dotSum_cons]
    have := mul_self_nonneg x
    linarith

theorem dotSum_self_pos (a : List ℝ) (h : ∃ x ∈ a, x ≠ 0) :
    0 < dotSum a a := by
  induction a with
  | nil => simp at h
  | cons y a' ih =>
    rw [dotSum_cons]
    obtain ⟨x, hx, hxne⟩ := h
    rw [List.mem_cons] at hx
    rcases hx with hx | hx
    · subst hx
      have h1 : 0 < x * x := mul_self_pos.mpr hxne
      have h2 : 0 ≤ dotSum a' a' := dotSum_self_nonneg a'
      linarith
    · have h1 : 0 < dotSum a' a' := ih ⟨x, hx, hxne⟩
      have h2 : 0 ≤ y * y := mul_self_nonneg y
      linarith

theorem dotSum_self_eq_zero (a : List ℝ) (h : ∀ x ∈ a, x = 0) :
    dotSum a a = 0 := by
  induction a with
  | nil => simp [dotSum]
  | cons y a' ih =>
    rw [dotSum_cons, h y (List.mem_cons_self y a'),
      ih (fun x hx => h x (List.mem_cons_of_mem y hx))]
    ring

theorem vecNorm_nonneg (a : List ℝ) : 0 ≤ vecNorm a := Real.sqrt_nonneg _

/-- Cauchy-Schwarz for the list-level dot product and norms. -/
theorem abs_dotSum_le (a b : List ℝ) (h : a.length = b.length) :
    |dotSum a b| ≤ vecNorm a * vecNorm b := by
  have key : ∀ (f g : ℕ → ℝ),
      ∑ i ∈ Finset.range a.length, f i * g i ≤
        Real.sqrt (∑ i ∈ Finset.range a.length, f i ^ 2) *
        Real.sqrt (∑ i ∈ Finset.range a.length, g i ^ 2) :=
    fun f g => Real.sum_mul_le_sqrt_mul_sqrt _ f g
  have hsq : ∀ (l : List ℝ),
      (∑ i ∈ Finset.range l.length, l.getD i 0 * l.getD i 0) =
        ∑ i ∈ Finset.range l.length, l.getD i 0 ^ 2 := by
    intro l
    refine Finset.sum_congr rfl (fun i _ => ?_)
    ring
  have hA : vecNorm a =
      Real.sqrt (∑ i ∈ Finset.range a.length, a.getD i 0 ^ 2) := by
    rw [vecNorm, dotSum_eq_range_sum a a rfl, hsq]
  have hB : vecNorm b =
      Real.sqrt (∑ i ∈ Finset.range a.length, b.getD i 0 ^ 2) := by
    rw [vecNorm, dotSum_eq_range_sum b b rfl, hsq, h]
  have hupper : dotSum a b ≤ vecNorm a * vecNorm b := by
    rw [dotSum_eq_range_sum a b h, hA, hB]
    exact key (fun i => a.getD i 0) (fun i => b.getD i 0)
  have hlower : -(vecNorm a * vecNorm b) ≤ dotSum a b := by
    have := key (fun i => a.getD i 0) (fun i => -(b.getD i 0))
    have hneg : ∑ i ∈ Finset.range a.length,
        a.getD i 0 * -(b.getD i 0) =
        -∑ i ∈ Finset.range a.length, a.getD i 0 * b.getD i 0 := by
      rw [← Finset.sum_neg_distrib]
      refine Finset.sum_congr rfl (fun i _ => ?_)
      ring
    have hgg : ∑ i ∈ Finset.range a.length, (-(b.getD i 0)) ^ 2 =
        ∑ i ∈ Finset.range a.length, b.getD i 0 ^ 2 := by
      refine Finset.sum_congr rfl (fun i _ => ?_)
      ring
    rw [hneg, hgg] at this
    rw [dotSum_eq_range_sum a b h, hA, hB]
    linarith
  exact abs_le.mpr ⟨hlower, hupper⟩

/-- Claim C8: `calculateCosineSimilarity` throws `DimensionMismatch` exactly
on a length mismatch; for equal-length vectors it returns a value in
`[-1, 1]` equal to `dot(a,b) / (‖a‖ * ‖b‖)` whenever both norms are nonzero;
`similarity(a, a) = 1` for every vector with a nonzero entry; and it returns
`0` (without throwing) whenever either vector is all-zero. -/
theorem calculateCosineSimilarity_spec (a b : List ℝ) :
    ((∃ e, EmbeddingService.calculateCosineSimilarity a b = .error e) ↔
      a.length ≠ b.length) ∧
    (a.length = b.length →
      ∃ r, EmbeddingService.calculateCosineSimilarity a b = .ok r ∧
        -1 ≤ r ∧ r ≤ 1 ∧
        (vecNorm a ≠ 0 → vecNorm b ≠ 0 →
          r = dotSum a b / (vecNorm a * vecNorm b))) ∧
    ((∃ x ∈ a, x ≠ 0) →
      EmbeddingService.calculateCosineSimilarity a a = .ok 1) ∧
    (a.length = b.length →
      ((∀ x ∈ a, x = 0) ∨ (∀ x ∈ b, x = 0)) →
      EmbeddingService.calculateCosineSimilarity a b = .ok 0) := by
  refine ⟨?_, ?_, ?_, ?_⟩
  · constructor
    · rintro ⟨e, he⟩
      intro hlen
      unfold EmbeddingService.calculateCosineSimilarity at he
      rw [if_neg (by simpa using hlen)] at he
      dsimp only at he
      by_cases h0 : vecNorm a = 0 ∨ vecNorm b = 0
      · rw [if_pos h0] at he
        cases he
      · rw [if_neg h0] at he
        cases he
    · intro hlen
      refine ⟨"Vectors must have the same length for cosine similarity calculation", ?_⟩
      unfold EmbeddingService.calculateCosineSimilarity
      rw [if_pos (by simpa using hlen)]
  · intro hlen
    unfold EmbeddingService.calculateCosineSimilarity
    rw [if_neg (by simpa using hlen)]
    dsimp only
    by_cases h0 : vecNorm a = 0 ∨ vecNorm b = 0
    · rw [if_pos h0]
      refine ⟨0, rfl, by norm_num, by norm_num, ?_⟩
      intro hA hB
      rcases h0 with h0 | h0
      · exact absurd h0 hA
      · exact absurd h0 hB
    · rw [if_neg h0]
      push_neg at h0
      obtain ⟨hA, hB⟩ := h0
      have hApos : 0 < vecNorm a := lt_of_le_of_ne (vecNorm_nonneg a) (Ne.symm hA)
      have hBpos : 0 < vecNorm b := lt_of_le_of_ne (vecNorm_nonneg b) (Ne.symm hB)
      have hprod : 0 < vecNorm a * vecNorm b := mul_pos hApos hBpos
      have habs := abs_dotSum_le a b hlen
      refine ⟨dotSum a b / (vecNorm a * vecNorm b), rfl, ?_, ?_, fun _ _ => rfl⟩
      · rw [le_div_iff hprod]
        have := abs_le.mp habs
        linarith [this.1]
      · rw [div_le_one hprod]
        exact le_trans (le_abs_self _) habs
  · rintro ⟨x, hx, hxne⟩
    have hpos : 0 < dotSum a a := dotSum_self_pos a ⟨x, hx, hxne⟩
    have hnorm : 0 < vecNorm a := Real.sqrt_pos.mpr hpos
    unfold EmbeddingService.calculateCosineSimilarity
    rw [if_neg (by simp)]
    dsimp only
    rw [if_neg (by push_neg; exact ⟨ne_of_gt hnorm, ne_of_gt hnorm⟩)]
    have hms : vecNorm a * vecNorm a = dotSum a a :=
      Real.mul_self_sqrt (le_of_lt hpos)
    rw [hms, div_self (ne_of_gt hpos)]
  · intro hlen h0
    have hz : vecNorm a = 0 ∨ vecNorm b = 0 := by
      rcases h0 with h0 | h0
      · left
        rw [vecNorm, dotSum_self_eq_zero a h0, Real.sqrt_zero]
      · right
        rw [vecNorm, dotSum_self_eq_zero b h0, Real.sqrt_zero]
    unfold EmbeddingService.calculateCosineSimilarity
    rw [if_neg (by simpa using hlen)]
    dsimp only
    rw [if_pos hz]

/-- Witness for C8: `similarity([1],[1]) = 1` and
`similarity([0,0],[1,0]) = 0`. -/
theorem calculateCosineSimilarity_spec_witness :
    EmbeddingService.calculateCosineSimilarity [(1 : ℝ)] [1] = .ok 1 ∧
    EmbeddingService.calculateCosineSimilarity [(0 : ℝ), 0] [1, 0] =
      .ok 0 := by
  constructor
  · exact (calculateCosineSimilarity_spec [(1 : ℝ)] [1]).2.2.1
      ⟨1, by simp, one_ne_zero⟩
  · exact (calculateCosineSimilarity_spec [(0 : ℝ), 0] [1, 0]).2.2.2 rfl
      (Or.inl (by intro x hx; simpa using hx))

/-! ## Chunker order and coverage (claim C9) -/

/-- The first character of `x` exists and is not whitespace. -/
def headNonWS : List Char → Prop
  | [] => False
  | c :: _ => wsChar c = false

/-- `x` is a non-empty string with non-whitespace first and last characters
(the shape of any non-empty `trim` result). -/
def IsTrimmedStr (x : List Char) : Prop :=
  headNonWS x ∧ headNonWS x.reverse

/-- `OrderedCover ss cs` says the strings `ss` can be assigned, in order, to
chunks of `cs`: there is a monotone assignment sending each element of `ss`
to a chunk of `cs` that contains it as a contiguous substring. Consecutive
elements may share a chunk (`cons` keeps the head chunk available) and chunks
may be skipped (`skip`), but the assignment never goes backwards — this is
exactly "no sentence is dropped or reordered". -/
inductive OrderedCover : List (List Char) → List (List Char) → Prop
  | nil (cs : List (List Char)) : OrderedCover [] cs
  | cons {s c : List Char} {ss cs : List (List Char)} :
      s <:+: c → OrderedCover ss (c :: cs) → OrderedCover (s :: ss) (c :: cs)
  | skip {c : List Char} {ss cs : List (List Char)} :
      OrderedCover ss cs → OrderedCover ss (c :: cs)

theorem OrderedCover.mem_chunk {ss cs : List (List Char)}
    (h : OrderedCover ss cs) : ∀ x ∈ ss, ∃ c ∈ cs, x <:+: c := by
  induction h with
  | nil => simp
  | cons hic _ ih =>
    intro x hx
    rw [List.mem_cons] at hx
    rcases hx with hx | hx
    · subst hx
      exact ⟨_, List.mem_cons_self _ _, hic⟩
    · obtain ⟨c', hc', hx'⟩ := ih x hx
      exact ⟨c', hc', hx'⟩
  | skip _ ih =>
    intro x hx
    obtain ⟨c', hc', hx'⟩ := ih x hx
    exact ⟨c', List.mem_cons_of_mem _ hc', hx'⟩

theorem infix_dropWhile_aux {x : List Char} (hx : headNonWS x) :
    ∀ (s t : List Char), x <:+: List.dropWhile wsChar (s ++ (x ++ t)) := by
  intro s
  induction s with
  | nil =>
    intro t
    cases x with
    | nil => exact absurd hx (by simp [headNonWS])
    | cons c x' =>
      rw [List.nil_append, List.cons_append, List.dropWhile_cons,
        if_neg (by simpa [headNonWS] using hx)]
      exact ⟨[], t, by simp⟩
  | cons d s' ih =>
    intro t
    rw [List.cons_append, List.dropWhile_cons]
    by_cases hd : wsChar d = true
    · rw [if_pos hd]
      exact ih t
    · rw [if_neg hd]
      exact ⟨d :: s', t, by simp⟩

theorem infix_dropWhile_of_headNonWS {x : List Char} (hx : headNonWS x)
    {l : List Char} (h : x <:+: l) : x <:+: l.dropWhile wsChar := by
  obtain ⟨s, t, hl⟩ := h
  rw [← hl] at *
  rw [hl, List.append_assoc]
  exact infix_dropWhile_aux hx s t

theorem infix_trimL_of_trimmed {x l : List Char} (hx : IsTrimmedStr x)
    (h : x <:+: l) : x <:+: trimL l := by
  have h1 : x <:+: l.dropWhile wsChar := infix_dropWhile_of_headNonWS hx.1 h
  have h2 : x.reverse <:+: (l.dropWhile wsChar).reverse :=
    List.reverse_infix.mpr h1
  have h3 : x.reverse <:+: (l.dropWhile wsChar).reverse.dropWhile wsChar :=
    infix_dropWhile_of_headNonWS hx.2 h2
  have h4 : x.reverse <:+:
      ((l.dropWhile wsChar).reverse.dropWhile wsChar).reverse.reverse := by
    rwa [List.reverse_reverse]
  exact List.reverse_infix.mp h4

theorem headNonWS_of_dropWhile :
    ∀ {l : List Char}, l.dropWhile wsChar ≠ [] →
      headNonWS (l.dropWhile wsChar) := by
  intro l
  induction l with
  | nil => intro h; exact absurd rfl h
  | cons c cs ih =>
    intro h
    rw [List.dropWhile_cons]
    by_cases hc : wsChar c = true
    · rw [if_pos hc]
      rw [List.dropWhile_cons, if_pos hc] at h
      exact ih h
    · rw [if_neg hc]
      simpa [headNonWS] using hc

theorem headNonWS_of_prefix {x y : List Char} (h : x <+: y) (hne : x ≠ [])
    (hy : headNonWS y) : headNonWS x := by
  obtain ⟨t, rfl⟩ := h
  cases x with
  | nil => exact absurd rfl hne
  | cons c x' => exact hy

theorem trimL_trimmed {l : List Char} (h : trimL l ≠ []) :
    IsTrimmedStr (trimL l) := by
  have hB : (l.dropWhile wsChar).reverse.dropWhile wsChar ≠ [] := by
    intro hB
    exact h (by simp [trimL, hB])
  have hA : l.dropWhile wsChar ≠ [] := by
    intro hA
    exact hB (by simp [hA])
  constructor
  · have h5 := List.reverse_prefix.mpr
      (List.dropWhile_suffix (l := (l.dropWhile wsChar).reverse) wsChar)
    rw [List.reverse_reverse] at h5
    exact headNonWS_of_prefix h5 (by simpa [trimL] using h)
      (headNonWS_of_dropWhile hA)
  · unfold trimL
    rw [List.reverse_reverse]
    exact headNonWS_of_dropWhile hB

theorem trimL_eq_self {x : List Char} (hx : IsTrimmedStr x) : trimL x = x := by
  have h1 : x.dropWhile wsChar = x := by
    cases x with
    | nil => rfl
    | cons c x' =>
      rw [List.dropWhile_cons, if_neg (by simpa [headNonWS] using hx.1)]
  have h2 : x.reverse.dropWhile wsChar = x.reverse := by
    cases hr : x.reverse with
    | nil => simp
    | cons c r' =>
      rw [List.dropWhile_cons]
      have := hx.2
      rw [hr] at this
      rw [if_neg (by simpa [headNonWS] using this)]
  rw [trimL, h1, h2, List.reverse_reverse]

theorem trimL_nil_all_ws {x : List Char} (h : trimL x = []) :
    ∀ c ∈ x, wsChar c = true := by
  have hBnil : (x.dropWhile wsChar).reverse.dropWhile wsChar = [] := by
    have h2 : ((x.dropWhile wsChar).reverse.dropWhile wsChar).reverse = [] := h
    simpa using h2
  have hAall : ∀ c ∈ (x.dropWhile wsChar).reverse, wsChar c = true :=
    List.dropWhile_eq_nil_iff.mp hBnil
  have hAall' : ∀ c ∈ x.dropWhile wsChar, wsChar c = true := by
    intro c hc
    exact hAall c (List.mem_reverse.mpr hc)
  intro c hc
  have hsplit := List.takeWhile_append_dropWhile wsChar x
  rw [← hsplit] at hc
  rw [List.mem_append] at hc
  rcases hc with hc | hc
  · exact List.mem_takeWhile_imp hc
  · exact hAall' c hc

theorem trimL_ne_nil_of_mem {x : List Char} {c : Char} (hc : c ∈ x)
    (hws : wsChar c = false) : trimL x ≠ [] := by
  intro h
  have := trimL_nil_all_ws h c hc
  rw [hws] at this
  cases this

theorem mem_trimL_of_not_ws {x : List Char} {c : Char} (hc : c ∈ x)
    (hws : wsChar c = false) : c ∈ trimL x := by
  have hsplit1 := List.takeWhile_append_dropWhile wsChar x
  have hsplit2 :=
    List.takeWhile_append_dropWhile wsChar (x.dropWhile wsChar).reverse
  rw [← hsplit1, List.mem_append] at hc
  rcases hc with hc | hc
  · have := List.mem_takeWhile_imp hc
    rw [hws] at this
    cases this
  · have hc2 : c ∈ (x.dropWhile wsChar).reverse := List.mem_reverse.mpr hc
    rw [← hsplit2, List.mem_append] at hc2
    rcases hc2 with hc2 | hc2
    · have := List.mem_takeWhile_imp hc2
      rw [hws] at this
      cases this
    · rw [trimL, List.mem_reverse]
      exact hc2

theorem chunkLoop_append (m o : Nat) :
    ∀ (rest : List (List Char)) (chunks : List (List Char)) (cur : List Char),
      chunkLoop m o rest chunks cur = chunks ++ chunkLoop m o rest [] cur := by
  intro rest
  induction rest with
  | nil =>
    intro chunks cur
    simp only [chunkLoop]
    by_cases h : 0 < (trimL cur).length
    · rw [if_pos h, if_pos h, List.nil_append]
    · rw [if_neg h, if_neg h, List.append_nil]
  | cons s rest ih =>
    intro chunks cur
    simp only [chunkLoop]
    by_cases h : cur.length + (trimL s).length > m ∧ 0 < cur.length
    · rw [if_pos h, if_pos h, ih (chunks ++ [trimL cur]),
        ih ([] ++ [trimL cur])]
      simp [List.append_assoc]
    · rw [if_neg h, if_neg h]
      exact ih chunks _

theorem chunkLoop_cover (m o : Nat) :
    ∀ (rest : List (List Char)) (cur : List Char),
      (∀ s ∈ rest, trimL s ≠ []) → trimL cur ≠ [] →
      ∃ c cs, chunkLoop m o rest [] cur = c :: cs ∧
        (∀ x, IsTrimmedStr x → x <:+: cur → x <:+: c) ∧
        OrderedCover (rest.map trimL) (c :: cs) := by
  intro rest
  induction rest with
  | nil =>
    intro cur hrest hcur
    refine ⟨trimL cur, [], ?_, ?_, OrderedCover.nil _⟩
    · simp only [chunkLoop]
      rw [if_pos (List.length_pos.mpr hcur)]
      rfl
    · intro x hx hinf
      exact infix_trimL_of_trimmed hx hinf
  | cons s rest ih =>
    intro cur hrest hcur
    have hs : trimL s ≠ [] := hrest s (List.mem_cons_self s rest)
    have hts : IsTrimmedStr (trimL s) := trimL_trimmed hs
    have hrest' : ∀ s' ∈ rest, trimL s' ≠ [] :=
      fun s' h' => hrest s' (List.mem_cons_of_mem s h')
    obtain ⟨ch, ts', hts_eq⟩ : ∃ ch ts', trimL s = ch :: ts' := by
      cases h : trimL s with
      | nil => exact absurd h hs
      | cons a b => exact ⟨a, b, rfl⟩
    have hch_ws : wsChar ch = false := by
      have h1 := hts.1
      rw [hts_eq] at h1
      exact h1
    have hch_mem : ch ∈ trimL s := by
      rw [hts_eq]
      exact List.mem_cons_self _ _
    by_cases hcond : cur.length + (trimL s).length > m ∧ 0 < cur.length
    · have hsuffix : trimL s <:+
          joinSp (sliceLast (o / 5) (splitSp cur)) ++ ' ' :: trimL s :=
        ⟨joinSp (sliceLast (o / 5) (splitSp cur)) ++ [' '], by simp⟩
      have hcur2 : trimL (joinSp (sliceLast (o / 5) (splitSp cur)) ++
          ' ' :: trimL s) ≠ [] :=
        trimL_ne_nil_of_mem (hsuffix.subset hch_mem) hch_ws
      obtain ⟨c2, cs2, heq2, hpres2, hOC2⟩ := ih _ hrest' hcur2
      refine ⟨trimL cur, c2 :: cs2, ?_, ?_, ?_⟩
      · simp only [chunkLoop]
        rw [if_pos hcond, chunkLoop_append m o rest ([] ++ [trimL cur]) _,
          heq2]
        rfl
      · intro x hx hinf
        exact infix_trimL_of_trimmed hx hinf
      · exact OrderedCover.skip
          (OrderedCover.cons (hpres2 (trimL s) hts hsuffix.isInfix) hOC2)
    · have hcurne : cur ≠ [] := by
        intro hnil
        rw [hnil] at hcur
        exact hcur rfl
      have hempty : cur.isEmpty = false := by
        cases cur with
        | nil => exact absurd rfl hcurne
        | cons a b => rfl
      have hsuffix : trimL s <:+ cur ++ ' ' :: trimL s :=
        ⟨cur ++ [' '], by simp⟩
      have hcur' : trimL (cur ++ ' ' :: trimL s) ≠ [] :=
        trimL_ne_nil_of_mem (hsuffix.subset hch_mem) hch_ws
      obtain ⟨c, cs, heq, hpres, hOC⟩ := ih _ hrest' hcur'
      refine ⟨c, cs, ?_, ?_, ?_⟩
      · simp only [chunkLoop]
        rw [if_neg hcond, hempty]
        simp only [Bool.false_eq_true, if_false]
        exact heq
      · intro x hx hinf
        refine hpres x hx (hinf.trans ?_)
        exact ⟨[], ' ' :: trimL s, by simp⟩
      · exact OrderedCover.cons (hpres (trimL s) hts hsuffix.isInfix) hOC

/-- Claim C9: the chunker preserves source order and sentence content. The
(trimmed) sentences of the input text are covered, in order, by the emitted
chunks via a monotone assignment (`OrderedCover`: no sentence is dropped or
reordered), and every non-whitespace character of every sentence fragment
appears in at least one emitted chunk. -/
theorem splitTextIntoChunks_order_and_coverage (m o : Nat)
    (text : List Char) :
    OrderedCover ((sentencesOfText text).map trimL)
      (splitTextIntoChunksL m o text) ∧
    ∀ s ∈ sentencesOfText text, ∀ ch ∈ s, wsChar ch = false →
      ∃ ck ∈ splitTextIntoChunksL m o text, ch ∈ ck := by
  have hsents : ∀ s ∈ sentencesOfText text, trimL s ≠ [] := by
    intro s hsm
    rw [sentencesOfText, List.mem_filter] at hsm
    have h2 := hsm.2
    rw [decide_eq_true_eq] at h2
    exact List.length_pos.mp h2
  have main : OrderedCover ((sentencesOfText text).map trimL)
      (splitTextIntoChunksL m o text) := by
    rw [splitTextIntoChunksL]
    rcases hs : sentencesOfText text with _ | ⟨s, rest⟩
    · simp only [chunkLoop, List.map_nil]
      rw [if_neg (by simp [trimL])]
      exact OrderedCover.nil []
    · have hAll : ∀ s' ∈ s :: rest, trimL s' ≠ [] := by
        rw [← hs]
        exact hsents
      have hts : trimL s ≠ [] := hAll s (List.mem_cons_self s rest)
      have htt : trimL (trimL s) ≠ [] := by
        rw [trimL_eq_self (trimL_trimmed hts)]
        exact hts
      obtain ⟨c, cs, heq, hpres, hOC⟩ := chunkLoop_cover m o rest (trimL s)
        (fun s' h' => hAll s' (List.mem_cons_of_mem s h')) htt
      have hev : chunkLoop m o (s :: rest) [] [] =
          chunkLoop m o rest [] (trimL s) := by
        simp only [chunkLoop]
        rw [if_neg (by simp)]
        rfl
      rw [hev, heq, List.map_cons]
      exact OrderedCover.cons (hpres (trimL s) (trimL_trimmed hts)
        List.infix_rfl) hOC
  refine ⟨main, ?_⟩
  intro s hsm ch hch hws
  obtain ⟨ck, hck, hinf⟩ := main.mem_chunk (trimL s)
    (List.mem_map_of_mem trimL hsm)
  exact ⟨ck, hck, hinf.subset (mem_trimL_of_not_ws hch hws)⟩

/-- Witness for C9: in the text "Hi there. Bye.", the character 'H' of the
first sentence appears in an emitted chunk. -/
theorem splitTextIntoChunks_order_and_coverage_witness :
    ∃ ck ∈ splitTextIntoChunksL 800 80 ("Hi there. Bye.".data), 'H' ∈ ck := by
  exact (splitTextIntoChunks_order_and_coverage 800 80
    ("Hi there. Bye.".data)).2 "Hi there".data (by decide) 'H' (by decide)
    (by decide)
